import Mathlib

/-!
Verification of the Pulse monitoring core.

This file gives a shallow embedding, in Lean, of the parts of the Pulse
repository that its specification talks about:

* the metrics history (`internal/monitoring/metrics_history.go`),
* the alert engine (`internal/alerts/alerts.go`),
* the cluster failover client (`pkg/proxmox/cluster_client.go`),
* the monitor's auth-failure lockout and storage/guest polling
  (`internal/monitoring/monitor.go`),

and proves theorems about the embedded definitions.

Modelling conventions:

* Go `float64` metric values become `ℚ` (the program only compares and
  subtracts them, so exact rationals are a faithful executable model).
* Go `time.Time` becomes `Int`, counted in seconds; `time.Duration`
  comparisons are translated to integer comparisons in seconds.
* Go maps become association lists `List (String × α)` with the helpers
  `setA` (insert-or-replace), `delA` (delete) and `List.lookup`.
* Goroutine callbacks (`onAlert`, `onResolved`, `onEscalate`) are modelled
  as emitted events, gated on whether the callback is set, exactly where
  the Go code invokes them.
* Disk persistence and logging are side effects outside the state we model
  and are dropped; struct fields that no claim or theorem mentions
  (e.g. `Message`, `Metadata`) are omitted from the embedded records.
-/

namespace Pulse

/-! ### Association-list maps (Go map operations) -/

/-- Insert-or-replace into an association list (Go `m[k] = v`). -/
def setA {α : Type} (k : String) (v : α) (l : List (String × α)) : List (String × α) :=
  (k, v) :: l.filter (fun p => p.1 != k)

/-- Delete a key from an association list (Go `delete(m, k)`). -/
def delA {α : Type} (k : String) (l : List (String × α)) : List (String × α) :=
  l.filter (fun p => p.1 != k)

/-! ### Metrics history (`internal/monitoring/metrics_history.go`) -/

/-- One stored sample (`types.MetricPoint`). -/
structure MetricPoint where
  timestamp : Int
  value : ℚ
  deriving DecidableEq, Repr

/-- Per-guest (and per-node) metric series (`GuestMetrics`). -/
structure GuestMetrics where
  cpu : List MetricPoint := []
  memory : List MetricPoint := []
  disk : List MetricPoint := []
  diskRead : List MetricPoint := []
  diskWrite : List MetricPoint := []
  networkIn : List MetricPoint := []
  networkOut : List MetricPoint := []
  deriving DecidableEq, Repr

/-- Per-storage metric series (`StorageMetrics`). -/
structure StorageMetrics where
  usage : List MetricPoint := []
  used : List MetricPoint := []
  total : List MetricPoint := []
  avail : List MetricPoint := []
  deriving DecidableEq, Repr

/-- The history manager state (`MetricsHistory`). -/
structure MetricsHistory where
  guestMetrics : List (String × GuestMetrics) := []
  nodeMetrics : List (String × GuestMetrics) := []
  storageMetrics : List (String × StorageMetrics) := []
  maxDataPoints : Nat
  retentionTime : Int
  deriving Repr

/-- The Go pruning loop of `appendMetric`: index of the first point strictly
after the cutoff (`p.Timestamp.After(cutoffTime)`), if any. -/
def firstFreshIdx (cut : Int) : List MetricPoint → Option Nat
  | [] => none
  | p :: rest => if cut < p.timestamp then some 0 else (firstFreshIdx cut rest).map (· + 1)

/-- `MetricsHistory.appendMetric`: append the new point, drop the prefix of
points at or before `now - retentionTime` (the Go loop takes the first index
whose timestamp is strictly after the cutoff; if no point is after the cutoff
nothing is dropped), then cap at `maxDataPoints` keeping the most recent. -/
def appendMetric (maxDataPoints : Nat) (retentionTime now : Int)
    (metrics : List MetricPoint) (point : MetricPoint) : List MetricPoint :=
  let appended := metrics ++ [point]
  let cutoffTime := now - retentionTime
  let kept := appended.drop ((firstFreshIdx cutoffTime appended).getD 0)
  if maxDataPoints < kept.length then kept.drop (kept.length - maxDataPoints)
  else kept

/-- The `switch metricType` of `AddGuestMetric`. -/
def applyGuestMetric (maxDataPoints : Nat) (retentionTime now : Int)
    (g : GuestMetrics) (metricType : String) (point : MetricPoint) : GuestMetrics :=
  match metricType with
  | "cpu" => {g with cpu := appendMetric maxDataPoints retentionTime now g.cpu point}
  | "memory" => {g with memory := appendMetric maxDataPoints retentionTime now g.memory point}
  | "disk" => {g with disk := appendMetric maxDataPoints retentionTime now g.disk point}
  | "diskread" => {g with diskRead := appendMetric maxDataPoints retentionTime now g.diskRead point}
  | "diskwrite" => {g with diskWrite := appendMetric maxDataPoints retentionTime now g.diskWrite point}
  | "netin" => {g with networkIn := appendMetric maxDataPoints retentionTime now g.networkIn point}
  | "netout" => {g with networkOut := appendMetric maxDataPoints retentionTime now g.networkOut point}
  | _ => g

/-- The `switch metricType` of `AddNodeMetric` (only cpu/memory/disk). -/
def applyNodeMetric (maxDataPoints : Nat) (retentionTime now : Int)
    (g : GuestMetrics) (metricType : String) (point : MetricPoint) : GuestMetrics :=
  match metricType with
  | "cpu" => {g with cpu := appendMetric maxDataPoints retentionTime now g.cpu point}
  | "memory" => {g with memory := appendMetric maxDataPoints retentionTime now g.memory point}
  | "disk" => {g with disk := appendMetric maxDataPoints retentionTime now g.disk point}
  | _ => g

/-- The `switch metricType` of `AddStorageMetric`. -/
def applyStorageMetric (maxDataPoints : Nat) (retentionTime now : Int)
    (s : StorageMetrics) (metricType : String) (point : MetricPoint) : StorageMetrics :=
  match metricType with
  | "usage" => {s with usage := appendMetric maxDataPoints retentionTime now s.usage point}
  | "used" => {s with used := appendMetric maxDataPoints retentionTime now s.used point}
  | "total" => {s with total := appendMetric maxDataPoints retentionTime now s.total point}
  | "avail" => {s with avail := appendMetric maxDataPoints retentionTime now s.avail point}
  | _ => s

/-- `MetricsHistory.AddGuestMetric` (initialize-if-missing, then append).
`now` models the `time.Now()` read inside `appendMetric`. -/
def AddGuestMetric (mh : MetricsHistory) (guestID metricType : String)
    (value : ℚ) (timestamp now : Int) : MetricsHistory :=
  let g := (mh.guestMetrics.lookup guestID).getD {}
  let g' := applyGuestMetric mh.maxDataPoints mh.retentionTime now g metricType ⟨timestamp, value⟩
  {mh with guestMetrics := setA guestID g' mh.guestMetrics}

/-- `MetricsHistory.AddNodeMetric`. -/
def AddNodeMetric (mh : MetricsHistory) (nodeID metricType : String)
    (value : ℚ) (timestamp now : Int) : MetricsHistory :=
  let g := (mh.nodeMetrics.lookup nodeID).getD {}
  let g' := applyNodeMetric mh.maxDataPoints mh.retentionTime now g metricType ⟨timestamp, value⟩
  {mh with nodeMetrics := setA nodeID g' mh.nodeMetrics}

/-- `MetricsHistory.AddStorageMetric`. -/
def AddStorageMetric (mh : MetricsHistory) (storageID metricType : String)
    (value : ℚ) (timestamp now : Int) : MetricsHistory :=
  let s := (mh.storageMetrics.lookup storageID).getD {}
  let s' := applyStorageMetric mh.maxDataPoints mh.retentionTime now s metricType ⟨timestamp, value⟩
  {mh with storageMetrics := setA storageID s' mh.storageMetrics}

/-- The series a guest/node `metricType` selects, as the `switch` does. -/
def guestSeries (g : GuestMetrics) : String → List MetricPoint
  | "cpu" => g.cpu
  | "memory" => g.memory
  | "disk" => g.disk
  | "diskread" => g.diskRead
  | "diskwrite" => g.diskWrite
  | "netin" => g.networkIn
  | "netout" => g.networkOut
  | _ => []

/-- The series a storage `metricType` selects. -/
def storageSeries (s : StorageMetrics) : String → List MetricPoint
  | "usage" => s.usage
  | "used" => s.used
  | "total" => s.total
  | "avail" => s.avail
  | _ => []

/-! ### Alert engine (`internal/alerts/alerts.go`)

The `Message`/`Metadata` fields and the history manager are omitted; the
`onAlert`/`onResolved`/`onEscalate` callbacks appear as events, emitted only
when the corresponding callback is set (`hasOnAlert`, ...), exactly where the
Go code invokes them. -/

/-- `AlertLevel`. -/
inductive AlertLevel where
  | warning
  | critical
  deriving DecidableEq, Repr

/-- `HysteresisThreshold`. -/
structure HysteresisThreshold where
  trigger : ℚ
  clear : ℚ
  deriving DecidableEq, Repr

/-- `Alert` (the fields the claims touch). -/
structure Alert where
  id : String
  atype : String
  level : AlertLevel
  resourceId : String
  resourceName : String
  node : String
  instanceName : String
  value : ℚ
  threshold : ℚ
  startTime : Int
  lastSeen : Int
  acknowledged : Bool := false
  lastEscalation : Nat := 0
  escalationTimes : List Int := []
  deriving DecidableEq, Repr

/-- `ResolvedAlert`. -/
structure ResolvedAlert where
  alert : Alert
  resolvedTime : Int
  deriving DecidableEq, Repr

/-- `ThresholdConfig` (hysteresis fields; the legacy fields are converted at
config ingress and play no role in `checkMetric`). -/
structure ThresholdConfig where
  cpu : Option HysteresisThreshold := none
  memory : Option HysteresisThreshold := none
  disk : Option HysteresisThreshold := none
  diskRead : Option HysteresisThreshold := none
  diskWrite : Option HysteresisThreshold := none
  networkIn : Option HysteresisThreshold := none
  networkOut : Option HysteresisThreshold := none
  deriving Repr

/-- `EscalationLevel` (`After` in minutes). -/
structure EscalationLevel where
  after : Int
  notify : String
  deriving DecidableEq, Repr

/-- `EscalationConfig`. -/
structure EscalationConfig where
  enabled : Bool
  levels : List EscalationLevel
  deriving Repr

/-- `ScheduleConfig` (the parts the claims touch). -/
structure ScheduleConfig where
  maxAlertsHour : Int
  escalation : EscalationConfig
  deriving Repr

/-- `AlertConfig`. `quietHoursActive` is the denotation of `isInQuietHours`
(a pure function of the current instant once the configured timezone,
HH:MM window and weekday set are fixed). -/
structure AlertConfig where
  enabled : Bool
  nodeDefaults : ThresholdConfig := {}
  storageDefault : HysteresisThreshold := ⟨85, 80⟩
  minimumDelta : ℚ
  suppressionWindow : Int
  timeThreshold : Int
  schedule : ScheduleConfig
  quietHoursActive : Int → Bool := fun _ => false

/-- Observable callback invocations of the alert engine. -/
inductive AEvent where
  | created (alertID : String) (level : AlertLevel)
  | notified (alertID : String)
  | resolvedCb (alertID : String)
  | escalatedCb (alertID : String) (level : Nat)
  deriving DecidableEq, Repr

/-- `Manager` mutable state (maps become association lists). -/
structure ManagerState where
  activeAlerts : List (String × Alert) := []
  recentAlerts : List (String × Alert) := []
  suppressedUntil : List (String × Int) := []
  recentlyResolved : List (String × ResolvedAlert) := []
  pendingAlerts : List (String × Int) := []
  nodeOfflineCount : List (String × Nat) := []
  alertRateLimit : List (String × List Int) := []
  hasOnAlert : Bool := false
  hasOnResolved : Bool := false
  hasOnEscalate : Bool := false
  deriving Repr

/-- `abs` from alerts.go. -/
def qabs (x : ℚ) : ℚ := if x < 0 then -x else x

/-- `Manager.checkRateLimit`: prune the per-alert window to the last hour and
admit the notification if under `MaxAlertsHour` (on rejection the stored list
is left untouched, as in the Go code). -/
def checkRateLimit (cfg : AlertConfig) (st : ManagerState) (alertID : String) (now : Int) :
    Bool × ManagerState :=
  if cfg.schedule.maxAlertsHour ≤ 0 then (true, st)
  else
    let cutoff := now - 3600
    let times := (st.alertRateLimit.lookup alertID).getD []
    let recent := times.filter (fun t => decide (cutoff < t))
    if cfg.schedule.maxAlertsHour ≤ (recent.length : Int) then (false, st)
    else (true, {st with alertRateLimit := setA alertID (recent ++ [now]) st.alertRateLimit})

/-- The tail of `checkMetric`'s creation branch: recent-duplicate dedup,
alert construction, rate limit and quiet-hours gating of the notification. -/
def createAlertPath (cfg : AlertConfig) (st : ManagerState)
    (alertID resourceID resourceName node instanceName resourceType metricType : String)
    (value : ℚ) (th : HysteresisThreshold) (now : Int) : ManagerState × List AEvent :=
  let dedup : Bool :=
    match st.recentAlerts.lookup alertID with
    | some recent =>
        decide (0 < cfg.minimumDelta) &&
          decide (now - recent.startTime < cfg.suppressionWindow * 60) &&
          decide (qabs (recent.value - value) < cfg.minimumDelta)
    | none => false
  if dedup then
    ({st with suppressedUntil := setA alertID (now + cfg.suppressionWindow * 60) st.suppressedUntil},
     [])
  else
    let level := if th.trigger + 10 ≤ value then AlertLevel.critical else AlertLevel.warning
    let alert : Alert :=
      { id := alertID, atype := metricType, level := level,
        resourceId := resourceID, resourceName := resourceName,
        node := node, instanceName := instanceName,
        value := value, threshold := th.trigger,
        startTime := now, lastSeen := now }
    let st1 := {st with activeAlerts := setA alertID alert st.activeAlerts,
                        recentAlerts := setA alertID alert st.recentAlerts}
    let rl := checkRateLimit cfg st1 alertID now
    if !rl.1 then (rl.2, [AEvent.created alertID level])
    else if cfg.quietHoursActive now && !(level == AlertLevel.critical) then
      (rl.2, [AEvent.created alertID level])
    else if rl.2.hasOnAlert then
      (rl.2, [AEvent.created alertID level, AEvent.notified alertID])
    else (rl.2, [AEvent.created alertID level])

/-- `Manager.checkMetric`: hysteresis threshold evaluation of one sample. -/
def checkMetric (cfg : AlertConfig) (st : ManagerState)
    (resourceID resourceName node instanceName resourceType metricType : String)
    (value : ℚ) (threshold : Option HysteresisThreshold) (now : Int) :
    ManagerState × List AEvent :=
  match threshold with
  | none => (st, [])
  | some th =>
    if th.trigger ≤ 0 then (st, [])
    else
      let alertID := resourceID ++ "-" ++ metricType
      let existing := st.activeAlerts.lookup alertID
      let suppressed : Bool :=
        match st.suppressedUntil.lookup alertID with
        | some u => decide (now < u)
        | none => false
      if suppressed then (st, [])
      else if th.trigger ≤ value then
        match existing with
        | none =>
          if 0 < cfg.timeThreshold then
            match st.pendingAlerts.lookup alertID with
            | some pendingTime =>
              if cfg.timeThreshold ≤ now - pendingTime then
                createAlertPath cfg {st with pendingAlerts := delA alertID st.pendingAlerts}
                  alertID resourceID resourceName node instanceName resourceType metricType
                  value th now
              else (st, [])
            | none => ({st with pendingAlerts := setA alertID now st.pendingAlerts}, [])
          else
            createAlertPath cfg st alertID resourceID resourceName node instanceName
              resourceType metricType value th now
        | some existingAlert =>
          let level := if th.trigger + 10 ≤ value then AlertLevel.critical else AlertLevel.warning
          let updated := {existingAlert with lastSeen := now, value := value, level := level}
          ({st with activeAlerts := setA alertID updated st.activeAlerts}, [])
      else
        let st1 :=
          if (st.pendingAlerts.lookup alertID).isSome then
            {st with pendingAlerts := delA alertID st.pendingAlerts}
          else st
        match existing with
        | none => (st1, [])
        | some existingAlert =>
          let clearThreshold := if th.clear ≤ 0 then th.trigger else th.clear
          if value ≤ clearThreshold then
            let resolved : ResolvedAlert := ⟨existingAlert, now⟩
            let st2 := {st1 with activeAlerts := delA alertID st1.activeAlerts,
                                 recentlyResolved := setA alertID resolved st1.recentlyResolved}
            if st2.hasOnResolved then (st2, [AEvent.resolvedCb alertID]) else (st2, [])
          else (st1, [])

/-- A node the monitor reports to the alert engine (`models.Node`, the
fields the alert engine reads, plus `host` for the synthetic failed node). -/
structure NodeModel where
  id : String
  name : String
  instanceName : String
  host : String := ""
  status : String
  ntype : String := "node"
  connectionHealth : String
  lastSeen : Int := 0
  cpu : ℚ := 0
  memUsage : ℚ := 0
  diskUsage : ℚ := 0
  deriving DecidableEq, Repr

/-- The offline test at the top of `Manager.CheckNode`. -/
def nodeIsOffline (n : NodeModel) : Bool :=
  n.status == "offline" || n.connectionHealth == "error" || n.connectionHealth == "failed"

/-- `Manager.checkNodeOffline`: confirm three consecutive offline
observations before raising the (always critical) `node-offline-<id>` alert;
while the alert exists each further observation only rewrites `StartTime`. -/
def checkNodeOffline (st : ManagerState) (node : NodeModel) (now : Int) :
    ManagerState × List AEvent :=
  let alertID := "node-offline-" ++ node.id
  match st.activeAlerts.lookup alertID with
  | some a =>
    let touched := {a with startTime := now}
    ({st with activeAlerts := setA alertID touched st.activeAlerts}, [])
  | none =>
    let offlineCount := (st.nodeOfflineCount.lookup node.id).getD 0 + 1
    let st1 := {st with nodeOfflineCount := setA node.id offlineCount st.nodeOfflineCount}
    if offlineCount < 3 then (st1, [])
    else
      let alert : Alert :=
        { id := alertID, atype := "connectivity", level := AlertLevel.critical,
          resourceId := node.id, resourceName := node.name, node := node.name,
          instanceName := node.instanceName, value := 0, threshold := 0,
          startTime := now, lastSeen := 0 }
      let st2 := {st1 with activeAlerts := setA alertID alert st1.activeAlerts,
                           recentAlerts := setA alertID alert st1.recentAlerts}
      if st2.hasOnAlert then (st2, [AEvent.created alertID AlertLevel.critical,
                                    AEvent.notified alertID])
      else (st2, [AEvent.created alertID AlertLevel.critical])

/-- `Manager.clearNodeOfflineAlert`: reset the offline counter and resolve an
existing offline alert. -/
def clearNodeOfflineAlert (st : ManagerState) (node : NodeModel) (now : Int) :
    ManagerState × List AEvent :=
  let alertID := "node-offline-" ++ node.id
  let st0 :=
    if 0 < (st.nodeOfflineCount.lookup node.id).getD 0 then
      {st with nodeOfflineCount := delA node.id st.nodeOfflineCount}
    else st
  match st0.activeAlerts.lookup alertID with
  | none => (st0, [])
  | some a =>
    let resolved : ResolvedAlert := ⟨a, now⟩
    let st1 := {st0 with activeAlerts := delA alertID st0.activeAlerts,
                         recentlyResolved := setA alertID resolved st0.recentlyResolved}
    if st1.hasOnResolved then (st1, [AEvent.resolvedCb alertID]) else (st1, [])

/-- `Manager.CheckNode`. -/
def CheckNode (cfg : AlertConfig) (st : ManagerState) (node : NodeModel) (now : Int) :
    ManagerState × List AEvent :=
  if !cfg.enabled then (st, [])
  else
    let thresholds := cfg.nodeDefaults
    let r1 := if nodeIsOffline node then checkNodeOffline st node now
              else clearNodeOfflineAlert st node now
    if node.status != "offline" then
      let r2 := checkMetric cfg r1.1 node.id node.name node.name node.instanceName "Node"
        "cpu" (node.cpu * 100) thresholds.cpu now
      let r3 := checkMetric cfg r2.1 node.id node.name node.name node.instanceName "Node"
        "memory" node.memUsage thresholds.memory now
      let r4 := checkMetric cfg r3.1 node.id node.name node.name node.instanceName "Node"
        "disk" node.diskUsage thresholds.disk now
      (r4.1, r1.2 ++ r2.2 ++ r3.2 ++ r4.2)
    else (r1.1, r1.2)

/-- A guest as `Manager.CheckGuest` reads it out of `models.VM` /
`models.Container` (`gtype` is "VM" or "Container"). -/
structure GuestModel where
  id : String
  name : String
  node : String
  instanceName : String
  status : String
  gtype : String
  cpu : ℚ := 0
  memUsage : ℚ := 0
  diskUsage : ℚ := 0
  diskRead : Int := 0
  diskWrite : Int := 0
  netIn : Int := 0
  netOut : Int := 0
  deriving DecidableEq, Repr

/-- One of the guarded I/O checks of `CheckGuest` (`Trigger > 0` guard and
bytes/s → MB/s conversion). -/
def checkIOMetric (cfg : AlertConfig) (st : ManagerState) (guest : GuestModel)
    (metricType : String) (rate : Int) (th : Option HysteresisThreshold) (now : Int) :
    ManagerState × List AEvent :=
  match th with
  | some t =>
    if 0 < t.trigger then
      checkMetric cfg st guest.id guest.name guest.node guest.instanceName guest.gtype
        metricType ((rate : ℚ) / 1024 / 1024) (some t) now
    else (st, [])
  | none => (st, [])

/-- `Manager.CheckGuest`. The threshold resolution
(`getGuestThresholds`: custom rules, overrides, defaults) is passed in as a
function, as no claim depends on its internals. -/
def CheckGuest (cfg : AlertConfig) (st : ManagerState)
    (getThresholds : GuestModel → ThresholdConfig) (guest : GuestModel) (now : Int) :
    ManagerState × List AEvent :=
  if !cfg.enabled then (st, [])
  else if guest.status == "stopped" then
    ({st with activeAlerts := st.activeAlerts.filter (fun p => p.2.resourceId != guest.id)}, [])
  else
    let thresholds := getThresholds guest
    let r1 := checkMetric cfg st guest.id guest.name guest.node guest.instanceName guest.gtype
      "cpu" guest.cpu thresholds.cpu now
    let r2 := checkMetric cfg r1.1 guest.id guest.name guest.node guest.instanceName guest.gtype
      "memory" guest.memUsage thresholds.memory now
    let r3 := checkMetric cfg r2.1 guest.id guest.name guest.node guest.instanceName guest.gtype
      "disk" guest.diskUsage thresholds.disk now
    let r4 := checkIOMetric cfg r3.1 guest "diskRead" guest.diskRead thresholds.diskRead now
    let r5 := checkIOMetric cfg r4.1 guest "diskWrite" guest.diskWrite thresholds.diskWrite now
    let r6 := checkIOMetric cfg r5.1 guest "networkIn" guest.netIn thresholds.networkIn now
    let r7 := checkIOMetric cfg r6.1 guest "networkOut" guest.netOut thresholds.networkOut now
    (r7.1, r1.2 ++ r2.2 ++ r3.2 ++ r4.2 ++ r5.2 ++ r6.2 ++ r7.2)

/-- The `for i, level := range levels` loop body of
`Manager.checkEscalations` (skip already-reached levels, escalate when past
`startTime + After` minutes). -/
def escalateLevelsLoop (now : Int) (alertID : String) (hasCb : Bool) :
    List (Nat × EscalationLevel) → Alert × List AEvent → Alert × List AEvent
  | [], acc => acc
  | il :: rest, acc =>
    let i := il.1
    let level := il.2
    let next :=
      if i + 1 ≤ acc.1.lastEscalation then acc
      else if acc.1.startTime + level.after * 60 < now then
        ({acc.1 with lastEscalation := i + 1,
                     escalationTimes := acc.1.escalationTimes ++ [now]},
         acc.2 ++ (if hasCb then [AEvent.escalatedCb alertID (i + 1)] else []))
      else acc
    escalateLevelsLoop now alertID hasCb rest next

/-- The inner escalation-level loop of `Manager.checkEscalations` for one
alert (acknowledged alerts are skipped). -/
def escalateOne (levels : List EscalationLevel) (now : Int) (alertID : String)
    (hasCb : Bool) (a : Alert) : Alert × List AEvent :=
  if a.acknowledged then (a, [])
  else escalateLevelsLoop now alertID hasCb levels.enum (a, [])

/-- `Manager.checkEscalations`: scan all active alerts. -/
def checkEscalations (cfg : AlertConfig) (st : ManagerState) (now : Int) :
    ManagerState × List AEvent :=
  if !cfg.schedule.escalation.enabled then (st, [])
  else
    let processed := st.activeAlerts.map (fun p =>
      (p.1, escalateOne cfg.schedule.escalation.levels now p.1 st.hasOnEscalate p.2))
    ({st with activeAlerts := processed.map (fun q => (q.1, q.2.1))},
     (processed.map (fun q => q.2.2)).flatten)

/-- A step of the node-offline/escalation interleaving of claim C9: the
monitor observes the node offline (`Manager.CheckNode` reaching
`checkNodeOffline`), or the escalation ticker fires (`checkEscalations`). -/
inductive NodeTraceStep where
  | offlineObs (t : Int)
  | escCheck (t : Int)
  deriving DecidableEq, Repr

/-- Run a node-offline/escalation trace, collecting all events. -/
def runNodeTrace (cfg : AlertConfig) (node : NodeModel) :
    ManagerState → List NodeTraceStep → ManagerState × List AEvent
  | st, [] => (st, [])
  | st, NodeTraceStep.offlineObs t :: rest =>
    let r := checkNodeOffline st node t
    let r2 := runNodeTrace cfg node r.1 rest
    (r2.1, r.2 ++ r2.2)
  | st, NodeTraceStep.escCheck t :: rest =>
    let r := checkEscalations cfg st t
    let r2 := runNodeTrace cfg node r.1 rest
    (r2.1, r.2 ++ r2.2)

/-- Time of the last offline observation in a trace (defaulting to `t0`). -/
def lastObsTime (t0 : Int) : List NodeTraceStep → Int
  | [] => t0
  | NodeTraceStep.offlineObs t :: rest => lastObsTime t rest
  | NodeTraceStep.escCheck _ :: rest => lastObsTime t0 rest

/-- Every escalation check happens within `gap` seconds of the most recent
offline observation (claim C9's "polled more often than the first
escalation interval"). -/
def escGapBounded (gap : Int) : Int → List NodeTraceStep → Bool
  | _, [] => true
  | t0, NodeTraceStep.offlineObs t :: rest => escGapBounded gap t rest
  | t0, NodeTraceStep.escCheck t :: rest =>
    decide (t - t0 ≤ gap) && escGapBounded gap t0 rest

/-- Feed a list of `(time, value)` samples of one metric through
`checkMetric`, returning the event list of each step. -/
def metricEventTrace (cfg : AlertConfig)
    (resourceID resourceName node instanceName resourceType metricType : String)
    (threshold : Option HysteresisThreshold) :
    ManagerState → List (Int × ℚ) → List (List AEvent)
  | _, [] => []
  | st, (t, v) :: rest =>
    let r := checkMetric cfg st resourceID resourceName node instanceName resourceType
      metricType v threshold t
    r.2 :: metricEventTrace cfg resourceID resourceName node instanceName resourceType
      metricType threshold r.1 rest

/-! ### Cluster failover client (`pkg/proxmox/cluster_client.go`)

Errors are modelled by their text (the code classifies them purely through
`strings.Contains` on `err.Error()`). The environment record carries the
outcomes of the non-deterministic parts: the random healthy-endpoint
selection, the connectivity probes, and the wrapped call `fn`. -/

/-- `strings.Contains`-style matcher on character lists: does `pat` occur at
the head of `s`? -/
def beginsWith : List Char → List Char → Bool
  | [], _ => true
  | _ :: _, [] => false
  | a :: pa, b :: pb => a == b && beginsWith pa pb

/-- Does `pat` occur anywhere in `s`? -/
def hasSub (pat : List Char) : List Char → Bool
  | [] => beginsWith pat []
  | b :: rest => beginsWith pat (b :: rest) || hasSub pat rest

/-- `strings.Contains(s, pat)`. -/
def strContainsSub (s pat : String) : Bool := hasSub pat.data s.data

/-- The node-specific-error carve-out of `executeWithFailover` (status 595,
or status 500 with a hostname-lookup body). -/
def isNodeSpecificError (s : String) : Bool :=
  strContainsSub s "595" ||
    (strContainsSub s "500" && strContainsSub s "hostname lookup") ||
    (strContainsSub s "500" && strContainsSub s "Name or service not known")

/-- `proxmox.IsAuthError`. -/
def IsAuthError (s : String) : Bool :=
  strContainsSub s "authentication" || strContainsSub s "401" || strContainsSub s "403"

/-- `ClusterClient` mutable state; `clients` is the set of endpoints that
hold a cached client object. -/
structure CCState where
  endpoints : List String
  nodeHealth : List (String × Bool) := []
  lastHealthCheck : List (String × Int) := []
  clients : List String := []
  deriving Repr

/-- Environment for one `executeWithFailover` call: current time, random
selection, probe outcomes and the wrapped call's per-endpoint result
(`none` = success, `some err` = failure with error text `err`). -/
structure CCEnv where
  now : Int
  sel : List String → Nat
  connProbe : String → Bool
  recProbe : String → Bool
  call : String → Option String

/-- The healthy-endpoint sweep over the health map. -/
def healthyEndpoints (cc : CCState) : List String :=
  cc.endpoints.filter (fun e => (cc.nodeHealth.lookup e).getD false)

/-- `ClusterClient.recoverUnhealthyNodes`: probe every unhealthy endpoint not
checked within the last 30 seconds; promote to healthy (caching a client) on
success, always stamping `lastHealthCheck`. -/
def recoverUnhealthyNodes (env : CCEnv) (cc : CCState) : CCState :=
  let candidates := cc.endpoints.filter (fun e =>
    !((cc.nodeHealth.lookup e).getD false) &&
      (match cc.lastHealthCheck.lookup e with
       | some t => decide (30 ≤ env.now - t)
       | none => true))
  candidates.foldl
    (fun acc e =>
      let acc1 := {acc with lastHealthCheck := setA e env.now acc.lastHealthCheck}
      if env.recProbe e then
        {acc1 with nodeHealth := setA e true acc1.nodeHealth, clients := e :: acc1.clients}
      else acc1)
    cc

/-- `ClusterClient.getHealthyClient`: random healthy endpoint (after a
recovery pass when none is healthy); a cache miss runs a connectivity test
whose failure marks the endpoint unhealthy and aborts. -/
def getHealthyClient (env : CCEnv) (cc : CCState) : CCState × Except String String :=
  let healthy := healthyEndpoints cc
  let step1 :=
    if healthy.isEmpty then
      let cc' := recoverUnhealthyNodes env cc
      (cc', healthyEndpoints cc')
    else (cc, healthy)
  let cc1 := step1.1
  let healthy1 := step1.2
  if healthy1.isEmpty then (cc1, Except.error "no healthy nodes available in cluster")
  else
    let selected := healthy1.getD (env.sel healthy1 % healthy1.length) ""
    if cc1.clients.contains selected then (cc1, Except.ok selected)
    else if env.connProbe selected then
      ({cc1 with clients := selected :: cc1.clients}, Except.ok selected)
    else
      ({cc1 with nodeHealth := setA selected false cc1.nodeHealth},
       Except.error "endpoint failed connectivity test")

/-- Observable actions of one `executeWithFailover` call. -/
inductive CEvent where
  | called (endpoint : String)
  | demoted (endpoint : String)
  deriving DecidableEq, Repr

/-- Is the event an invocation of the wrapped call? -/
def isCalledEvent : CEvent → Bool
  | CEvent.called _ => true
  | CEvent.demoted _ => false

/-- The retry loop body of `executeWithFailover` (`maxRetries` as fuel). -/
def failoverLoop (env : CCEnv) : Nat → CCState → CCState × Except String Unit × List CEvent
  | 0, cc => (cc, Except.error "all cluster nodes failed", [])
  | fuel + 1, cc =>
    match getHealthyClient env cc with
    | (cc1, Except.error e) => (cc1, Except.error e, [])
    | (cc1, Except.ok ep) =>
      match env.call ep with
      | none => (cc1, Except.ok (), [CEvent.called ep])
      | some err =>
        if isNodeSpecificError err then (cc1, Except.error err, [CEvent.called ep])
        else if IsAuthError err then (cc1, Except.error err, [CEvent.called ep])
        else
          let cc2 := {cc1 with nodeHealth := setA ep false cc1.nodeHealth}
          let r := failoverLoop env fuel cc2
          (r.1, r.2.1, CEvent.called ep :: CEvent.demoted ep :: r.2.2)

/-- `ClusterClient.executeWithFailover` with `maxRetries = len(endpoints)`. -/
def executeWithFailover (env : CCEnv) (cc : CCState) :
    CCState × Except String Unit × List CEvent :=
  failoverLoop env cc.endpoints.length cc

/-! ### Monitor (`internal/monitoring/monitor.go`)

State-store updates (`UpdateXForInstance`) atomically replace the
per-instance shard, which the model renders as `setA instanceName ...` on a
per-instance association list. -/

/-- `models.VM` (identity fields; numeric metrics are not read by the
claims). -/
structure VMModel where
  id : String
  vmid : Int
  name : String
  node : String
  instanceName : String
  status : String
  deriving DecidableEq, Repr

/-- `models.Container` (identity fields). -/
structure CTModel where
  id : String
  vmid : Int
  name : String
  node : String
  instanceName : String
  status : String
  deriving DecidableEq, Repr

/-- `proxmox.Storage` as returned by `GetStorage`/`GetAllStorage`. -/
structure PStorage where
  storage : String
  stype : String := ""
  shared : Nat := 0
  enabled : Nat := 0
  active : Nat := 0
  deriving DecidableEq, Repr

/-- `models.Storage` (the fields the storage claims touch; capacity and
content fields are omitted). -/
structure StorageModel where
  id : String
  name : String
  node : String
  instanceName : String
  status : String
  shared : Bool
  enabled : Bool
  active : Bool
  deriving DecidableEq, Repr

/-- Opaque per-instance resources that the auth lockout clears. -/
structure BackupTaskModel where
  id : String
  deriving DecidableEq, Repr

/-- See `BackupTaskModel`. -/
structure StorageBackupModel where
  id : String
  deriving DecidableEq, Repr

/-- See `BackupTaskModel`. -/
structure GuestSnapshotModel where
  id : String
  deriving DecidableEq, Repr

/-- `models.PBSInstance` (name only). -/
structure PBSInstanceModel where
  name : String
  deriving DecidableEq, Repr

/-- `models.PBSBackup` (opaque). -/
structure PBSBackupModel where
  id : String
  deriving DecidableEq, Repr

/-- The state store (`internal/models.State`), sharded per instance. -/
structure StateStore where
  nodes : List (String × List NodeModel) := []
  vms : List (String × List VMModel) := []
  containers : List (String × List CTModel) := []
  storage : List (String × List StorageModel) := []
  backupTasks : List (String × List BackupTaskModel) := []
  storageBackups : List (String × List StorageBackupModel) := []
  guestSnapshots : List (String × List GuestSnapshotModel) := []
  pbsInstances : List PBSInstanceModel := []
  pbsBackups : List (String × List PBSBackupModel) := []
  connectionHealth : List (String × Bool) := []
  deriving Repr

/-- PVE instance configuration (name/host as used by the lockout path). -/
structure PVEInstanceConfig where
  name : String
  host : String
  isCluster : Bool := false
  deriving Repr

/-- Monitor configuration (the part the claims touch). -/
structure MonitorConfig where
  pveInstances : List PVEInstanceConfig := []
  deriving Repr

/-- Monitor mutable state. -/
structure MonitorState where
  authFailures : List (String × Nat) := []
  lastAuthAttempt : List (String × Int) := []
  state : StateStore := {}
  deriving Repr

/-- `Monitor.removeFailedPVENode`: replace the instance's nodes with one
synthetic offline node, clear every other per-instance resource shard, and
set connection health to false. -/
def removeFailedPVENode (cfg : MonitorConfig) (m : MonitorState) (instanceName : String)
    (now : Int) : MonitorState :=
  let hostURL := ((cfg.pveInstances.find? (fun c => c.name == instanceName)).map
    (fun c => c.host)).getD ""
  let failedNode : NodeModel :=
    { id := instanceName ++ "-failed", name := instanceName, instanceName := instanceName,
      host := hostURL, status := "offline", ntype := "node", connectionHealth := "error",
      lastSeen := now }
  let s := m.state
  let s1 := {s with nodes := setA instanceName [failedNode] s.nodes}
  let s2 := {s1 with vms := setA instanceName [] s1.vms}
  let s3 := {s2 with containers := setA instanceName [] s2.containers}
  let s4 := {s3 with storage := setA instanceName [] s3.storage}
  let s5 := {s4 with backupTasks := setA instanceName [] s4.backupTasks}
  let s6 := {s5 with storageBackups := setA instanceName [] s5.storageBackups}
  let s7 := {s6 with guestSnapshots := setA instanceName [] s6.guestSnapshots}
  let s8 := {s7 with connectionHealth := setA instanceName false s7.connectionHealth}
  {m with state := s8}

/-- `Monitor.removeFailedPBSNode`. -/
def removeFailedPBSNode (m : MonitorState) (instanceName : String) : MonitorState :=
  let s := m.state
  let s1 := {s with pbsInstances := s.pbsInstances.filter (fun inst => inst.name != instanceName)}
  let s2 := {s1 with pbsBackups := setA instanceName [] s1.pbsBackups}
  let s3 := {s2 with connectionHealth := setA ("pbs-" ++ instanceName) false s2.connectionHealth}
  {m with state := s3}

/-- `Monitor.recordAuthFailure`: increment the per-node counter; at 5
consecutive failures remove the node from state and reset the counter. -/
def recordAuthFailure (cfg : MonitorConfig) (m : MonitorState)
    (instanceName nodeType : String) (now : Int) : MonitorState :=
  let nodeID := if nodeType != "" then nodeType ++ "-" ++ instanceName else instanceName
  let count := (m.authFailures.lookup nodeID).getD 0 + 1
  let m1 := {m with authFailures := setA nodeID count m.authFailures,
                    lastAuthAttempt := setA nodeID now m.lastAuthAttempt}
  if 5 ≤ count then
    let m2 :=
      if nodeType == "pve" then removeFailedPVENode cfg m1 instanceName now
      else if nodeType == "pbs" then removeFailedPBSNode m1 instanceName
      else m1
    {m2 with authFailures := delA nodeID m2.authFailures,
             lastAuthAttempt := delA nodeID m2.lastAuthAttempt}
  else m1

/-- `Monitor.resetAuthFailures`. -/
def resetAuthFailures (m : MonitorState) (instanceName nodeType : String) : MonitorState :=
  let nodeID := if nodeType != "" then nodeType ++ "-" ++ instanceName else instanceName
  match m.authFailures.lookup nodeID with
  | some count =>
    if 0 < count then
      {m with authFailures := delA nodeID m.authFailures,
              lastAuthAttempt := delA nodeID m.lastAuthAttempt}
    else m
  | none => m

/-- A `GetNodes` error as the monitor classifies it. `isAuth` is the verdict
of `errors.IsAuthError` from the repository's internal errors package (that
package's source file is not part of this corpus). Modelled from the spec:
"Authentication errors: increment `authFailures[instance]`". -/
structure MonitorErr where
  msg : String
  isAuth : Bool
  deriving DecidableEq, Repr

/-- A node row as returned by `GetNodes` (opaque here). -/
structure PVENodeRec where
  node : String
  deriving DecidableEq, Repr

/-- The `GetNodes` handling at the top of `Monitor.pollPVEInstance`
(monitor.go lines 573-589): on failure set connection health false and
record an auth failure when classified as such; on success reset the
counter and set connection health true. Returns whether polling continues. -/
def handlePVEGetNodes (cfg : MonitorConfig) (m : MonitorState) (instanceName : String)
    (result : Except MonitorErr (List PVENodeRec)) (now : Int) : MonitorState × Bool :=
  match result with
  | Except.error e =>
    let s1 := {m.state with connectionHealth := setA instanceName false m.state.connectionHealth}
    let m1 := {m with state := s1}
    let m2 := if e.isAuth then recordAuthFailure cfg m1 instanceName "pve" now else m1
    (m2, false)
  | Except.ok _ =>
    let m1 := resetAuthFailures m instanceName "pve"
    let s1 := {m1.state with connectionHealth := setA instanceName true m1.state.connectionHealth}
    ({m1 with state := s1}, true)

/-- `n` consecutive `GetNodes` polls all failing with the same error, at
times `t, t+1, ...` (claim C3's consecutive auth failures). -/
def iterFailingPolls (cfg : MonitorConfig) (instanceName : String) (e : MonitorErr) :
    Nat → Int → MonitorState → MonitorState
  | 0, _, m => m
  | n + 1, t, m =>
    iterFailingPolls cfg instanceName e n (t + 1)
      (handlePVEGetNodes cfg m instanceName (Except.error e) t).1

/-- A row of `GetClusterResources(ctx, "vm")`. -/
structure ClusterResource where
  rtype : String
  vmid : Int
  name : String
  node : String
  status : String
  template : Nat := 0
  deriving DecidableEq, Repr

/-- VM row built by the efficient path (`fmt.Sprintf("%s-%s-%d", ...)`). -/
def mkVMFromResource (instanceName : String) (r : ClusterResource) : VMModel :=
  { id := instanceName ++ "-" ++ r.node ++ "-" ++ toString r.vmid, vmid := r.vmid,
    name := r.name, node := r.node, instanceName := instanceName, status := r.status }

/-- Container row built by the efficient path. -/
def mkCTFromResource (instanceName : String) (r : ClusterResource) : CTModel :=
  { id := instanceName ++ "-" ++ r.node ++ "-" ++ toString r.vmid, vmid := r.vmid,
    name := r.name, node := r.node, instanceName := instanceName, status := r.status }

/-- The resource loop of `pollVMsAndContainersEfficient`: split into VM and
container rows, skipping templates. -/
def collectClusterGuests (instanceName : String) :
    List ClusterResource → List VMModel × List CTModel
  | [] => ([], [])
  | r :: rest =>
    let acc := collectClusterGuests instanceName rest
    if r.rtype == "qemu" then
      if r.template == 1 then acc else (mkVMFromResource instanceName r :: acc.1, acc.2)
    else if r.rtype == "lxc" then
      if r.template == 1 then acc else (acc.1, mkCTFromResource instanceName r :: acc.2)
    else acc

/-- `Monitor.pollVMsAndContainersEfficient`: on success publish the VM and
container shards only when non-empty; on error fall back (return false). -/
def pollVMsAndContainersEfficient (m : MonitorState) (instanceName : String)
    (resources : Except String (List ClusterResource)) : MonitorState × Bool :=
  match resources with
  | Except.error _ => (m, false)
  | Except.ok rs =>
    let allGuests := collectClusterGuests instanceName rs
    let m1 :=
      if 0 < allGuests.1.length then
        {m with state := {m.state with vms := setA instanceName allGuests.1 m.state.vms}}
      else m
    let m2 :=
      if 0 < allGuests.2.length then
        {m1 with state :=
          {m1.state with containers := setA instanceName allGuests.2 m1.state.containers}}
      else m1
    (m2, true)

/-- Go map construction `clusterStorageMap[cs.Storage] = cs` (later entries
overwrite earlier ones), queried by name. -/
def clusterStorageLookup (clusterStorages : List PStorage) (name : String) : Option PStorage :=
  clusterStorages.reverse.find? (fun cs => cs.storage == name)

/-- The `shared := hasClusterConfig && clusterConfig.Shared == 1` computation
of `pollStorageWithNodes`. -/
def storageSharedFlag (clusterStorages : List PStorage) (name : String) : Bool :=
  match clusterStorageLookup clusterStorages name with
  | some c => c.shared == 1
  | none => false

/-- The `models.Storage` row built for one reported pool by
`pollStorageWithNodes`. -/
def buildStorageEntry (instanceName nodeName : String) (clusterStorages : List PStorage)
    (st : PStorage) (shared : Bool) : StorageModel :=
  let nodeID := if shared then "shared" else nodeName
  let storageID :=
    if shared then "shared-" ++ st.storage
    else instanceName ++ "-" ++ nodeName ++ "-" ++ st.storage
  let clusterConfig := clusterStorageLookup clusterStorages st.storage
  let enabled := match clusterConfig with | some c => c.enabled == 1 | none => true
  let active := match clusterConfig with | some c => c.active == 1 | none => true
  let status :=
    if st.active == 1 || active then "available"
    else if enabled then "inactive"
    else "disabled"
  { id := storageID, name := st.storage, node := nodeID, instanceName := instanceName,
    status := status, shared := shared, enabled := enabled, active := active }

/-- The inner loop of `pollStorageWithNodes` over one node's reported pools,
carrying the cross-node `seenStorage` set used to deduplicate shared pools. -/
def processNodeStorage (instanceName nodeName : String) (clusterStorages : List PStorage) :
    List PStorage → List String → List StorageModel × List String
  | [], seen => ([], seen)
  | st :: rest, seen =>
    let shared := storageSharedFlag clusterStorages st.storage
    if shared && seen.contains st.storage then
      processNodeStorage instanceName nodeName clusterStorages rest seen
    else
      let seen1 := if shared then st.storage :: seen else seen
      let entry := buildStorageEntry instanceName nodeName clusterStorages st shared
      let res := processNodeStorage instanceName nodeName clusterStorages rest seen1
      (entry :: res.1, res.2)

/-- The outer loop of `pollStorageWithNodes` over the nodes; a node whose
`GetStorage` fails (`none`) is skipped. -/
def buildAllStorage (instanceName : String) (clusterStorages : List PStorage)
    (getStorage : String → Option (List PStorage)) :
    List String → List String → List StorageModel
  | [], _ => []
  | n :: rest, seen =>
    match getStorage n with
    | none => buildAllStorage instanceName clusterStorages getStorage rest seen
    | some entries =>
      let res := processNodeStorage instanceName n clusterStorages entries seen
      res.1 ++ buildAllStorage instanceName clusterStorages getStorage rest res.2

/-- `Monitor.pollStorageWithNodes`: build the instance's storage list and
publish it (the trailing loop re-stamping `st.Instance = instanceName` is the
identity here, every entry already carries it). -/
def pollStorageWithNodes (m : MonitorState) (instanceName : String)
    (clusterStorages : List PStorage) (getStorage : String → Option (List PStorage))
    (nodeNames : List String) : MonitorState :=
  let allStorage := buildAllStorage instanceName clusterStorages getStorage nodeNames []
  {m with state := {m.state with storage := setA instanceName allStorage m.state.storage}}

/-! ### Concrete fixtures for the specification's scenarios

`scenarioCfg` carries the `NewManager` defaults the scenarios rely on
(minimumDelta 2, suppressionWindow 5 minutes, maxAlertsHour 10, quiet hours
and escalation disabled); `scenarioCfgTT` adds the 30-second time threshold
of scenario S2; `scenarioSt` is a fresh manager with callbacks subscribed. -/

def scenarioCfg : AlertConfig :=
  { enabled := true, minimumDelta := 2, suppressionWindow := 5, timeThreshold := 0,
    schedule := { maxAlertsHour := 10, escalation := { enabled := false, levels := [] } } }

def scenarioCfgTT : AlertConfig := { scenarioCfg with timeThreshold := 30 }

def scenarioSt : ManagerState := { hasOnAlert := true, hasOnResolved := true }

def c9cfg : AlertConfig :=
  { enabled := true, minimumDelta := 2, suppressionWindow := 5, timeThreshold := 0,
    schedule :=
      { maxAlertsHour := 10,
        escalation := { enabled := true, levels := [{ after := 15, notify := "email" }] } } }

def c9node : NodeModel :=
  { id := "lab-px1", name := "px1", instanceName := "lab", status := "offline",
    connectionHealth := "error" }

def c9alert : Alert :=
  { id := "node-offline-lab-px1", atype := "connectivity", level := AlertLevel.critical,
    resourceId := "lab-px1", resourceName := "px1", node := "px1", instanceName := "lab",
    value := 0, threshold := 0, startTime := 0, lastSeen := 0 }

def c9st : ManagerState :=
  { activeAlerts := [("node-offline-lab-px1", c9alert)], hasOnEscalate := true }

def c10vm : VMModel :=
  { id := "lab-px1-100", vmid := 100, name := "web", node := "px1",
    instanceName := "lab", status := "running" }

def c10m : MonitorState := { state := { vms := [("lab", [c10vm])] } }

def c10res : ClusterResource :=
  { rtype := "lxc", vmid := 200, name := "ct", node := "px1", status := "running",
    template := 0 }

/-- S4 fixture: three healthy cached endpoints. -/
def c2cc : CCState :=
  { endpoints := ["e1", "e2", "e3"],
    nodeHealth := [("e1", true), ("e2", true), ("e3", true)],
    clients := ["e1", "e2", "e3"] }

/-- S4 fixture environment: every call fails with a node-specific 595 error. -/
def c2env : CCEnv :=
  { now := 0, sel := fun _ => 0, connProbe := fun _ => true, recProbe := fun _ => false,
    call := fun _ => some "595 no ticket for hostname lookup" }

/-- Failover fixture environment: the first endpoint fails with an
unclassified error, the others succeed. -/
def c2envB : CCEnv :=
  { now := 0, sel := fun _ => 0, connProbe := fun _ => true, recProbe := fun _ => false,
    call := fun e => if e == "e1" then some "boom" else none }

/-- Metrics-history fixture: two cpu points for guest g1, capacity 2. -/
def c8mh : MetricsHistory :=
  { guestMetrics := [("g1", { cpu := [⟨5, 10⟩, ⟨6, 20⟩] })],
    maxDataPoints := 2, retentionTime := 100 }

/-- The cpu series of `c8mh`, used to instantiate the pruning facts. -/
def c8series : List MetricPoint := [⟨5, 10⟩, ⟨6, 20⟩]

/-- Cluster storage configuration with one shared pool named `n1-x`. -/
def c7cs : List PStorage := [{ storage := "n1-x", shared := 1, enabled := 1, active := 1 }]

/-- Node `n1` reports the local (unconfigured) pool `x` and the shared pool
`n1-x`. -/
def c7gs : String → Option (List PStorage) := fun n =>
  if n == "n1" then
    some [{ storage := "x", enabled := 1, active := 1 },
          { storage := "n1-x", shared := 1, enabled := 1, active := 1 }]
  else none

/-- An empty monitor, polled in the storage scenarios. -/
def c7m : MonitorState := {}

/-- S3 fixture: the cluster configuration marks `ceph-rbd` shared. -/
def c7cs2 : List PStorage :=
  [{ storage := "ceph-rbd", shared := 1, enabled := 1, active := 1 }]

/-- S3 fixture: every node reports the shared pool `ceph-rbd`. -/
def c7gs2 : String → Option (List PStorage) :=
  fun _ => some [{ storage := "ceph-rbd", shared := 1, enabled := 1, active := 1 }]

/-- A single active cpu alert for guest `lab-px1-100`. -/
def c6alert : Alert :=
  { id := "lab-px1-100-cpu", atype := "cpu", level := AlertLevel.warning,
    resourceId := "lab-px1-100", resourceName := "guest", node := "px1",
    instanceName := "lab", value := 86, threshold := 80, startTime := 0, lastSeen := 0 }

/-- Manager holding only `c6alert`. -/
def c6st : ManagerState := { activeAlerts := [("lab-px1-100-cpu", c6alert)] }

/-- The stopped guest the alert references. -/
def c6guest : GuestModel :=
  { id := "lab-px1-100", name := "guest", node := "px1", instanceName := "lab",
    status := "stopped", gtype := "VM" }

/-! ## Supporting lemmas -/

theorem lookup_filter_ne {α : Type} (k k' : String) (l : List (String × α)) (h : k' ≠ k) :
    (l.filter (fun p => p.1 != k)).lookup k' = l.lookup k' := by
  induction l with
  | nil => rfl
  | cons p t ih =>
    obtain ⟨a, b⟩ := p
    by_cases ha : a = k
    · subst ha
      simp only [List.filter, bne_self_eq_false]
      rw [ih]
      have hk : (k' == a) = false := beq_eq_false_iff_ne.mpr h
      simp [List.lookup, hk]
    · have ha' : (a != k) = true := bne_iff_ne.mpr ha
      simp only [List.filter, ha']
      by_cases hk : k' = a
      · subst hk
        simp [List.lookup]
      · have hk' : (k' == a) = false := beq_eq_false_iff_ne.mpr hk
        simp [List.lookup, hk', ih]

theorem lookup_setA_same {α : Type} (k : String) (v : α) (l : List (String × α)) :
    (setA k v l).lookup k = some v := by
  simp [setA, List.lookup]

theorem lookup_setA_other {α : Type} (k k' : String) (v : α) (l : List (String × α))
    (h : k' ≠ k) : (setA k v l).lookup k' = l.lookup k' := by
  have hk : (k' == k) = false := beq_eq_false_iff_ne.mpr h
  simp [setA, List.lookup, hk, lookup_filter_ne k k' l h]

theorem lookup_delA_same {α : Type} (k : String) (l : List (String × α)) :
    (delA k l).lookup k = none := by
  induction l with
  | nil => rfl
  | cons p t ih =>
    obtain ⟨a, b⟩ := p
    by_cases ha : a = k
    · subst ha
      simpa [delA, List.filter] using ih
    · have ha' : (a != k) = true := bne_iff_ne.mpr ha
      have hk : (k == a) = false := beq_eq_false_iff_ne.mpr (Ne.symm ha)
      simp only [delA, List.filter, ha'] at ih ⊢
      simpa [List.lookup, hk] using ih

theorem lookup_delA_other {α : Type} (k k' : String) (l : List (String × α))
    (h : k' ≠ k) : (delA k l).lookup k' = l.lookup k' :=
  lookup_filter_ne k k' l h
/-- After the cap step, a series never exceeds `maxDataPoints`. -/
theorem appendMetric_length (maxDataPoints : Nat) (retentionTime now : Int)
    (metrics : List MetricPoint) (point : MetricPoint) :
    (appendMetric maxDataPoints retentionTime now metrics point).length ≤ maxDataPoints := by
  simp only [appendMetric]
  split
  next h => simp only [List.length_drop]; omega
  next h => omega

/-- If the pruning loop finds no fresh point, every point is at or before the
cutoff. -/
theorem firstFreshIdx_eq_none (cut : Int) (L : List MetricPoint)
    (h : firstFreshIdx cut L = none) : ∀ q ∈ L, q.timestamp ≤ cut := by
  induction L with
  | nil => simp
  | cons a t ih =>
    intro q hq
    by_cases hpa : cut < a.timestamp
    · simp [firstFreshIdx, hpa] at h
    · simp only [firstFreshIdx, hpa, if_false, Option.map_eq_none'] at h
      rcases List.mem_cons.mp hq with hqa | hmem
      · exact hqa ▸ le_of_not_lt hpa
      · exact ih h q hmem

/-- If a sorted list contains a point after the cutoff, dropping the prefix up
to the first such point leaves only points after the cutoff. -/
theorem drop_firstFresh_fresh (cut : Int) (L : List MetricPoint)
    (hs : List.Pairwise (fun a b => a.timestamp ≤ b.timestamp) L)
    (hex : ∃ q ∈ L, cut < q.timestamp) :
    ∀ q ∈ L.drop ((firstFreshIdx cut L).getD 0), cut < q.timestamp := by
  induction L with
  | nil => simp at hex
  | cons a t ih =>
    by_cases hpa : cut < a.timestamp
    · intro q hq
      simp only [firstFreshIdx, hpa, if_true, Option.getD_some, List.drop_zero] at hq
      rcases List.mem_cons.mp hq with h | h
      · exact h ▸ hpa
      · exact lt_of_lt_of_le hpa ((List.pairwise_cons.mp hs).1 q h)
    · have hex' : ∃ q ∈ t, cut < q.timestamp := by
        rcases hex with ⟨q, hq, hcut⟩
        rcases List.mem_cons.mp hq with h | h
        · exact absurd (h ▸ hcut) hpa
        · exact ⟨q, h, hcut⟩
      have hne : firstFreshIdx cut t ≠ none := by
        intro hnone
        rcases hex' with ⟨q, hq, hcut⟩
        exact absurd hcut (not_lt.mpr (firstFreshIdx_eq_none cut t hnone q hq))
      cases hi : firstFreshIdx cut t with
      | none => exact absurd hi hne
      | some i =>
        intro q hq
        simp only [firstFreshIdx, hpa, if_false, hi, Option.map_some', Option.getD_some,
          List.drop_succ_cons] at hq
        have := ih (List.pairwise_cons.mp hs).2 hex'
        rw [hi] at this
        exact this q hq

/-- Every surviving point of `appendMetric` is after the retention cutoff,
provided the series (with the new point) is time-sorted and the new point
itself is within the retention window. -/
theorem appendMetric_fresh (maxDataPoints : Nat) (retentionTime now : Int)
    (metrics : List MetricPoint) (point : MetricPoint)
    (hs : List.Pairwise (fun a b => a.timestamp ≤ b.timestamp) (metrics ++ [point]))
    (hfresh : now - retentionTime < point.timestamp) :
    ∀ q ∈ appendMetric maxDataPoints retentionTime now metrics point,
      now - retentionTime < q.timestamp := by
  intro q hq
  have hex : ∃ r ∈ metrics ++ [point], now - retentionTime < r.timestamp :=
    ⟨point, by simp, hfresh⟩
  have base := drop_firstFresh_fresh (now - retentionTime) (metrics ++ [point]) hs hex
  simp only [appendMetric] at hq
  split at hq
  · exact base q (List.drop_subset _ _ hq)
  · exact base q hq

/-- `appendMetric` discards from the front only: the result is a suffix of
the old series with the point appended. -/
theorem appendMetric_suffix (maxDataPoints : Nat) (retentionTime now : Int)
    (metrics : List MetricPoint) (point : MetricPoint) :
    (appendMetric maxDataPoints retentionTime now metrics point) <:+ metrics ++ [point] := by
  simp only [appendMetric]
  split
  · exact (List.drop_suffix _ _).trans (List.drop_suffix _ _)
  · exact List.drop_suffix _ _




theorem beginsWith_eq_true_iff : ∀ p s : List Char, beginsWith p s = true ↔ p <+: s := by
  intro p
  induction p with
  | nil => intro s; simp [beginsWith]
  | cons a pa ih =>
    intro s
    cases s with
    | nil => simp [beginsWith]
    | cons b pb =>
      simp [beginsWith, Bool.and_eq_true, beq_iff_eq, ih, List.cons_prefix_cons]

/-- Under the instance-name proviso, a non-shared storage id can never equal a
shared storage id. -/
theorem notShared_id_ne (inst node name nm : String)
    (h1 : inst ≠ "shared")
    (h2 : beginsWith ("shared-".data) inst.data = false) :
    inst ++ "-" ++ node ++ "-" ++ name ≠ "shared-" ++ nm := by
  intro he
  have hd : (inst ++ "-" ++ node ++ "-" ++ name).data = ("shared-" ++ nm).data :=
    congrArg String.data he
  have hdash : ("-" : String).data = ['-'] := rfl
  have hsd : ("shared-" : String).data = ['s', 'h', 'a', 'r', 'e', 'd', '-'] := rfl
  rw [String.data_append, String.data_append, String.data_append, String.data_append,
    String.data_append, hdash, hsd] at hd
  have hinst : inst.data ≠ ("shared" : String).data := by
    intro hx
    exact h1 (by cases inst; cases ("shared" : String); simp_all)
  have hshd : ("shared" : String).data = ['s', 'h', 'a', 'r', 'e', 'd'] := rfl
  have hp1 : inst.data ++ ['-'] <+: ['s', 'h', 'a', 'r', 'e', 'd', '-'] ++ nm.data := by
    rw [← hd]
    have hassoc : inst.data ++ ['-'] ++ node.data ++ ['-'] ++ name.data =
        (inst.data ++ ['-']) ++ (node.data ++ ['-'] ++ name.data) := by
      simp [List.append_assoc]
    rw [hassoc]
    exact List.prefix_append _ _
  have hp2 : ['s', 'h', 'a', 'r', 'e', 'd', '-'] <+:
      ['s', 'h', 'a', 'r', 'e', 'd', '-'] ++ nm.data := List.prefix_append _ _
  rcases List.prefix_or_prefix_of_prefix hp1 hp2 with hc | hc
  · rcases hc with ⟨u, hu⟩
    have hrev := congrArg List.reverse hu
    have hSrev : (['s', 'h', 'a', 'r', 'e', 'd', '-'] : List Char).reverse =
        ['-', 'd', 'e', 'r', 'a', 'h', 's'] := rfl
    rw [hSrev] at hrev
    simp only [List.reverse_append, List.reverse_singleton, List.singleton_append] at hrev
    generalize hw : u.reverse = w at hrev
    cases w with
    | nil =>
      simp only [List.nil_append, List.cons.injEq] at hrev
      have ht : inst.data = ['s', 'h', 'a', 'r', 'e', 'd'] := by
        have hx := hrev.2
        rw [List.reverse_eq_iff] at hx
        simpa using hx
      exact hinst (by rw [ht, hshd])
    | cons c w2 =>
      simp only [List.cons_append, List.cons.injEq] at hrev
      have hmem : ('-' : Char) ∈ w2 ++ '-' :: inst.data.reverse := by simp
      rw [hrev.2] at hmem
      exact absurd hmem (by decide)
  · rcases hc with ⟨u, hu⟩
    have hrev := congrArg List.reverse hu
    have hSrev : (['s', 'h', 'a', 'r', 'e', 'd', '-'] : List Char).reverse =
        ['-', 'd', 'e', 'r', 'a', 'h', 's'] := rfl
    simp only [List.reverse_append, List.reverse_singleton, List.singleton_append,
      hSrev] at hrev
    generalize hw : u.reverse = w at hrev
    cases w with
    | nil =>
      simp only [List.nil_append, List.cons.injEq] at hrev
      have ht : inst.data = ['s', 'h', 'a', 'r', 'e', 'd'] := by
        have hx := hrev.2.symm
        rw [List.reverse_eq_iff] at hx
        simpa using hx
      exact hinst (by rw [ht, hshd])
    | cons c w2 =>
      simp only [List.cons_append, List.cons.injEq] at hrev
      have ht : inst.data = ['s', 'h', 'a', 'r', 'e', 'd', '-'] ++ w2.reverse := by
        have hx := hrev.2.symm
        rw [List.reverse_eq_iff] at hx
        simpa using hx
      have hpre : ("shared-" : String).data <+: inst.data := by
        rw [ht, hsd]
        exact List.prefix_append _ _
      rw [(beginsWith_eq_true_iff _ _).mpr hpre] at h2
      exact Bool.true_eq_false.mp h2

/-- `String.append` is left-cancellative. -/
theorem str_append_left_cancel (p a b : String) (h : p ++ a = p ++ b) : a = b := by
  have hd := congrArg String.data h
  rw [String.data_append, String.data_append] at hd
  have := List.append_cancel_left hd
  cases a; cases b; simp_all

/-- The identity fields `buildStorageEntry` assigns. -/
theorem buildStorageEntry_fields (inst n : String) (cs : List PStorage) (e : PStorage)
    (sh : Bool) :
    (buildStorageEntry inst n cs e sh).id =
      (if sh then "shared-" ++ e.storage else inst ++ "-" ++ n ++ "-" ++ e.storage) ∧
    (buildStorageEntry inst n cs e sh).name = e.storage ∧
    (buildStorageEntry inst n cs e sh).node = (if sh then "shared" else n) ∧
    (buildStorageEntry inst n cs e sh).shared = sh := by
  cases sh <;> simp [buildStorageEntry]

theorem processNodeStorage_shared_count (inst n nm : String) (cs : List PStorage)
    (h1 : inst ≠ "shared") (h2 : beginsWith ("shared-".data) inst.data = false) :
    ∀ (es : List PStorage) (seen : List String),
      ((processNodeStorage inst n cs es seen).1.filter
          (fun s => s.id == "shared-" ++ nm)).length
        + (if seen.contains nm then 1 else 0) ≤ 1 ∧
      (((processNodeStorage inst n cs es seen).2.contains nm = true) ↔
        (seen.contains nm = true ∨
          1 ≤ ((processNodeStorage inst n cs es seen).1.filter
              (fun s => s.id == "shared-" ++ nm)).length)) := by
  intro es
  induction es with
  | nil =>
    intro seen
    constructor
    · simp only [processNodeStorage, List.filter_nil, List.length_nil, Nat.zero_add]
      split_ifs <;> omega
    · simp [processNodeStorage]
  | cons e rest ih =>
    intro seen
    by_cases hskip : (storageSharedFlag cs e.storage && seen.contains e.storage) = true
    · simp only [processNodeStorage, hskip, if_true]
      exact ih seen
    · simp only [processNodeStorage]
      rw [if_neg hskip]
      by_cases hsh : storageSharedFlag cs e.storage = true
      · by_cases henm : e.storage = nm
        · have hcon : seen.contains nm = false := by
            cases hx : seen.contains nm with
            | false => rfl
            | true => exact absurd (by rw [hsh, henm, hx]; rfl) hskip
          have hmatch : ((buildStorageEntry inst n cs e true).id ==
              "shared-" ++ nm) = true := by
            rw [(buildStorageEntry_fields inst n cs e true).1]
            simp [henm]
          have hseen1 : ((e.storage :: seen).contains nm) = true := by
            simp [List.contains_cons, henm]
          have hrest := ih (e.storage :: seen)
          rw [hseen1, if_pos rfl] at hrest
          simp only [hsh, eq_self_iff_true, if_true, List.filter_cons, hmatch,
            List.length_cons, hcon, Bool.false_eq_true, if_false]
          have h5 := hrest.1
          constructor
          · omega
          · constructor
            · intro _
              right
              omega
            · intro _
              exact hrest.2.mpr (Or.inl rfl)
        · have hmatch : ((buildStorageEntry inst n cs e true).id ==
              "shared-" ++ nm) = false := by
            rw [(buildStorageEntry_fields inst n cs e true).1, if_pos rfl]
            exact beq_eq_false_iff_ne.mpr
              (fun h => henm (str_append_left_cancel "shared-" _ _ h))
          have hseen1 : ((e.storage :: seen).contains nm) = seen.contains nm := by
            rw [List.contains_cons]
            rw [beq_eq_false_iff_ne.mpr (fun h => henm h.symm)]
            rfl
          have hrest := ih (e.storage :: seen)
          rw [hseen1] at hrest
          simp only [hsh, eq_self_iff_true, if_true, List.filter_cons, hmatch,
            Bool.false_eq_true, if_false]
          exact hrest
      · have hshf : storageSharedFlag cs e.storage = false := by
          cases hflag : storageSharedFlag cs e.storage with
          | true => exact absurd hflag hsh
          | false => rfl
        have hmatch : ((buildStorageEntry inst n cs e false).id ==
            "shared-" ++ nm) = false := by
          rw [(buildStorageEntry_fields inst n cs e false).1, if_neg (by simp)]
          exact beq_eq_false_iff_ne.mpr (notShared_id_ne inst n e.storage nm h1 h2)
        simp only [hshf, Bool.false_eq_true, if_false, List.filter_cons, hmatch]
        exact ih seen

/-- If the seen set does not hold `nm`, a node report of the shared pool `nm`
emits an entry with id `shared-<nm>`. -/
theorem processNodeStorage_shared_emits (inst n nm : String) (cs : List PStorage)
    (hflag : storageSharedFlag cs nm = true) :
    ∀ (es : List PStorage) (seen : List String),
      seen.contains nm = false → (∃ e ∈ es, e.storage = nm) →
      1 ≤ ((processNodeStorage inst n cs es seen).1.filter
          (fun s => s.id == "shared-" ++ nm)).length := by
  intro es
  induction es with
  | nil =>
    intro seen _ hex
    simp at hex
  | cons e rest ih =>
    intro seen hcon hex
    by_cases henm : e.storage = nm
    · have hskip : (storageSharedFlag cs e.storage && seen.contains e.storage) = false := by
        rw [henm, hcon, Bool.and_false]
      have hmatch : ((buildStorageEntry inst n cs e
          (storageSharedFlag cs e.storage)).id == "shared-" ++ nm) = true := by
        rw [henm, hflag, (buildStorageEntry_fields inst n cs e true).1, if_pos rfl]
        simp [henm]
      simp only [processNodeStorage]
      rw [if_neg (by rw [hskip]; exact Bool.false_ne_true)]
      simp only [List.filter_cons, hmatch, if_pos, List.length_cons]
      omega
    · rcases hex with ⟨e0, he0, hst⟩
      have he0r : e0 ∈ rest := by
        rcases List.mem_cons.mp he0 with h | h
        · exact absurd (h ▸ hst) henm
        · exact h
      by_cases hskip : (storageSharedFlag cs e.storage && seen.contains e.storage) = true
      · simp only [processNodeStorage, hskip, if_true]
        exact ih seen hcon ⟨e0, he0r, hst⟩
      · simp only [processNodeStorage]
        rw [if_neg hskip]
        cases hsh : storageSharedFlag cs e.storage with
        | false =>
          have hr := ih seen hcon ⟨e0, he0r, hst⟩
          simp only [hsh, Bool.false_eq_true, if_false, List.filter_cons]
          split_ifs
          · simp only [List.length_cons]
            omega
          · exact hr
        | true =>
          have hseen1 : (e.storage :: seen).contains nm = false := by
            rw [List.contains_cons, beq_eq_false_iff_ne.mpr (fun h => henm h.symm), hcon]
            rfl
          have hr := ih (e.storage :: seen) hseen1 ⟨e0, he0r, hst⟩
          simp only [hsh, eq_self_iff_true, if_true, List.filter_cons]
          split_ifs
          · simp only [List.length_cons]
            omega
          · exact hr

/-- Every entry emitted for one node is `buildStorageEntry` of one of its
reported pools with the cluster shared flag. -/
theorem processNodeStorage_mem (inst n : String) (cs : List PStorage) :
    ∀ (es : List PStorage) (seen : List String) (s : StorageModel),
      s ∈ (processNodeStorage inst n cs es seen).1 →
      ∃ e ∈ es, s = buildStorageEntry inst n cs e (storageSharedFlag cs e.storage) := by
  intro es
  induction es with
  | nil =>
    intro seen s hs
    simp [processNodeStorage] at hs
  | cons e rest ih =>
    intro seen s hs
    simp only [processNodeStorage] at hs
    split at hs
    · rcases ih _ s hs with ⟨e0, he0, hq⟩
      exact ⟨e0, List.mem_cons_of_mem _ he0, hq⟩
    · rcases List.mem_cons.mp hs with h | h
      · exact ⟨e, List.mem_cons_self _ _, h⟩
      · rcases ih _ s h with ⟨e0, he0, hq⟩
        exact ⟨e0, List.mem_cons_of_mem _ he0, hq⟩

/-- The non-shared entries a node contributes: one per non-shared report,
each carrying the reporting node's name. -/
theorem processNodeStorage_nonshared_count (inst n n0 : String) (cs : List PStorage) :
    ∀ (es : List PStorage) (seen : List String),
      ((processNodeStorage inst n cs es seen).1.filter
          (fun s => !s.shared && s.node == n0)).length =
        if n = n0 then (es.filter (fun e => !storageSharedFlag cs e.storage)).length
        else 0 := by
  intro es
  induction es with
  | nil =>
    intro seen
    simp [processNodeStorage]
  | cons e rest ih =>
    intro seen
    by_cases hskip : (storageSharedFlag cs e.storage && seen.contains e.storage) = true
    · have hand : storageSharedFlag cs e.storage = true ∧ seen.contains e.storage = true := by
        simpa using hskip
      simp only [processNodeStorage]
      rw [if_pos hskip]
      simp only [List.filter_cons, hand.1, Bool.not_true, Bool.false_eq_true, if_false]
      exact ih seen
    · simp only [processNodeStorage]
      rw [if_neg hskip]
      cases hsh : storageSharedFlag cs e.storage with
      | true =>
        have hent : ((!(buildStorageEntry inst n cs e true).shared &&
            ((buildStorageEntry inst n cs e true).node == n0)) = false) := by
          rw [(buildStorageEntry_fields inst n cs e true).2.2.2]
          rfl
        simp only [hsh, eq_self_iff_true, if_true, List.filter_cons, hent,
          Bool.false_eq_true, if_false, Bool.not_true]
        exact ih (e.storage :: seen)
      | false =>
        have hshared : (buildStorageEntry inst n cs e false).shared = false :=
          (buildStorageEntry_fields inst n cs e false).2.2.2
        have hnode : (buildStorageEntry inst n cs e false).node = n := by
          rw [(buildStorageEntry_fields inst n cs e false).2.2.1]
          rfl
        by_cases hn : n = n0
        · subst hn
          have hent : ((!(buildStorageEntry inst n cs e false).shared &&
              ((buildStorageEntry inst n cs e false).node == n)) = true) := by
            rw [hshared, hnode]
            simp
          simp only [hsh, Bool.false_eq_true, if_false, List.filter_cons, hent,
            eq_self_iff_true, if_true, List.length_cons, Bool.not_false]
          rw [ih seen, if_pos rfl]
        · have hent : ((!(buildStorageEntry inst n cs e false).shared &&
              ((buildStorageEntry inst n cs e false).node == n0)) = false) := by
            rw [hshared, hnode]
            simp [hn]
          simp only [hsh, Bool.false_eq_true, if_false, List.filter_cons, hent,
            Bool.not_false]
          rw [ih seen, if_neg hn, if_neg hn]

/-- Every entry of the built storage list comes from a successfully polled
node's report, via `buildStorageEntry` with the cluster shared flag. -/
theorem buildAllStorage_mem (inst : String) (cs : List PStorage)
    (gs : String → Option (List PStorage)) :
    ∀ (nodes : List String) (seen : List String) (s : StorageModel),
      s ∈ buildAllStorage inst cs gs nodes seen →
      ∃ n ∈ nodes, ∃ es, gs n = some es ∧ ∃ e ∈ es,
        s = buildStorageEntry inst n cs e (storageSharedFlag cs e.storage) := by
  intro nodes
  induction nodes with
  | nil =>
    intro seen s hs
    simp [buildAllStorage] at hs
  | cons n0 rest ih =>
    intro seen s hs
    simp only [buildAllStorage] at hs
    cases hg : gs n0 with
    | none =>
      rw [hg] at hs
      rcases ih _ s hs with ⟨n1, hn1, es, hes, hq⟩
      exact ⟨n1, List.mem_cons_of_mem _ hn1, es, hes, hq⟩
    | some es0 =>
      rw [hg] at hs
      rcases List.mem_append.mp hs with h | h
      · rcases processNodeStorage_mem inst n0 cs es0 seen s h with ⟨e, he, hq⟩
        exact ⟨n0, List.mem_cons_self _ _, es0, hg, e, he, hq⟩
      · rcases ih _ s h with ⟨n1, hn1, es, hes, hq⟩
        exact ⟨n1, List.mem_cons_of_mem _ hn1, es, hes, hq⟩

/-- Across all nodes, at most one entry with id `shared-<nm>` is built (none
when `nm` starts out seen). -/
theorem buildAllStorage_shared_count (inst nm : String) (cs : List PStorage)
    (gs : String → Option (List PStorage))
    (h1 : inst ≠ "shared") (h2 : beginsWith ("shared-".data) inst.data = false) :
    ∀ (nodes : List String) (seen : List String),
      ((buildAllStorage inst cs gs nodes seen).filter
          (fun s => s.id == "shared-" ++ nm)).length
        + (if seen.contains nm then 1 else 0) ≤ 1 := by
  intro nodes
  induction nodes with
  | nil =>
    intro seen
    simp only [buildAllStorage, List.filter_nil, List.length_nil, Nat.zero_add]
    split_ifs <;> omega
  | cons n0 rest ih =>
    intro seen
    simp only [buildAllStorage]
    cases hg : gs n0 with
    | none => exact ih seen
    | some es0 =>
      have hproc := processNodeStorage_shared_count inst n0 nm cs h1 h2 es0 seen
      have hrest := ih (processNodeStorage inst n0 cs es0 seen).2
      rw [List.filter_append, List.length_append]
      by_cases hcnt : 1 ≤ ((processNodeStorage inst n0 cs es0 seen).1.filter
          (fun s => s.id == "shared-" ++ nm)).length
      · have hout : (processNodeStorage inst n0 cs es0 seen).2.contains nm = true :=
          hproc.2.mpr (Or.inr hcnt)
        rw [hout, if_pos rfl] at hrest
        have := hproc.1
        split_ifs at this ⊢ <;> omega
      · have hz : ((processNodeStorage inst n0 cs es0 seen).1.filter
            (fun s => s.id == "shared-" ++ nm)).length = 0 := by omega
        have hiff : (processNodeStorage inst n0 cs es0 seen).2.contains nm =
            seen.contains nm := by
          cases hx : seen.contains nm with
          | true =>
            have := hproc.2.mpr (Or.inl hx)
            rw [this]
          | false =>
            cases hy : (processNodeStorage inst n0 cs es0 seen).2.contains nm with
            | false => rfl
            | true =>
              rcases hproc.2.mp hy with h | h
              · rw [hx] at h
                exact absurd h (by simp)
              · omega
        rw [hiff] at hrest
        omega

/-- If the shared pool `nm` (not yet seen) is reported by a successfully
polled node, some entry with id `shared-<nm>` is built. -/
theorem buildAllStorage_shared_emits (inst nm : String) (cs : List PStorage)
    (gs : String → Option (List PStorage))
    (h1 : inst ≠ "shared") (h2 : beginsWith ("shared-".data) inst.data = false)
    (hflag : storageSharedFlag cs nm = true) :
    ∀ (nodes : List String) (seen : List String),
      seen.contains nm = false →
      (∃ n ∈ nodes, ∃ es, gs n = some es ∧ ∃ e ∈ es, e.storage = nm) →
      1 ≤ ((buildAllStorage inst cs gs nodes seen).filter
          (fun s => s.id == "shared-" ++ nm)).length := by
  intro nodes
  induction nodes with
  | nil =>
    intro seen _ hex
    simp at hex
  | cons n0 rest ih =>
    intro seen hcon hex
    rcases hex with ⟨n1, hn1, es1, hes1, e, he, hst⟩
    simp only [buildAllStorage]
    cases hg : gs n0 with
    | none =>
      have hn1r : n1 ∈ rest := by
        rcases List.mem_cons.mp hn1 with h | h
        · rw [h, hg] at hes1
          exact absurd hes1 (by simp)
        · exact h
      exact ih seen hcon ⟨n1, hn1r, es1, hes1, e, he, hst⟩
    | some es0 =>
      rw [List.filter_append, List.length_append]
      by_cases hcnt : 1 ≤ ((processNodeStorage inst n0 cs es0 seen).1.filter
          (fun s => s.id == "shared-" ++ nm)).length
      · omega
      · have hproc := processNodeStorage_shared_count inst n0 nm cs h1 h2 es0 seen
        have hout : (processNodeStorage inst n0 cs es0 seen).2.contains nm = false := by
          cases hy : (processNodeStorage inst n0 cs es0 seen).2.contains nm with
          | false => rfl
          | true =>
            rcases hproc.2.mp hy with h | h
            · rw [hcon] at h
              exact absurd h (by simp)
            · omega
        rcases List.mem_cons.mp hn1 with hcase | hcase
        · have hes0 : es1 = es0 := by
            rw [hcase, hg] at hes1
            exact (Option.some.injEq _ _ ▸ hes1).symm
          have := processNodeStorage_shared_emits inst n0 nm cs hflag es0 seen hcon
            ⟨e, hes0 ▸ he, hst⟩
          omega
        · have := ih (processNodeStorage inst n0 cs es0 seen).2 hout
            ⟨n1, hcase, es1, hes1, e, he, hst⟩
          omega

/-- Nodes never polled contribute no non-shared entries. -/
theorem buildAllStorage_nonshared_zero (inst n0 : String) (cs : List PStorage)
    (gs : String → Option (List PStorage)) :
    ∀ (nodes : List String) (seen : List String), n0 ∉ nodes →
      ((buildAllStorage inst cs gs nodes seen).filter
          (fun s => !s.shared && s.node == n0)).length = 0 := by
  intro nodes
  induction nodes with
  | nil =>
    intro seen _
    simp [buildAllStorage]
  | cons n1 rest ih =>
    intro seen hnm
    have hne : n1 ≠ n0 := fun h => hnm (h ▸ List.mem_cons_self _ _)
    have hnr : n0 ∉ rest := fun h => hnm (List.mem_cons_of_mem _ h)
    simp only [buildAllStorage]
    cases hg : gs n1 with
    | none => exact ih seen hnr
    | some es0 =>
      rw [List.filter_append, List.length_append,
        processNodeStorage_nonshared_count inst n1 n0 cs es0 seen, if_neg hne,
        ih _ hnr]

/-- With distinct node names, the published non-shared entries of node `n0`
are exactly one per non-shared pool it reports. -/
theorem buildAllStorage_nonshared_count (inst n0 : String) (cs : List PStorage)
    (gs : String → Option (List PStorage)) :
    ∀ (nodes : List String) (seen : List String) (es0 : List PStorage),
      nodes.Nodup → n0 ∈ nodes → gs n0 = some es0 →
      ((buildAllStorage inst cs gs nodes seen).filter
          (fun s => !s.shared && s.node == n0)).length =
        (es0.filter (fun e => !storageSharedFlag cs e.storage)).length := by
  intro nodes
  induction nodes with
  | nil =>
    intro seen es0 _ hmem _
    simp at hmem
  | cons n1 rest ih =>
    intro seen es0 hnd hmem hgs
    have hnd1 : n1 ∉ rest := (List.nodup_cons.mp hnd).1
    have hnd2 : rest.Nodup := (List.nodup_cons.mp hnd).2
    simp only [buildAllStorage]
    rcases List.mem_cons.mp hmem with hcase | hcase
    · subst hcase
      rw [hgs, List.filter_append, List.length_append,
        processNodeStorage_nonshared_count inst n0 n0 cs es0 seen, if_pos rfl,
        buildAllStorage_nonshared_zero inst n0 cs gs rest _ hnd1]
      omega
    · have hne : n1 ≠ n0 := fun h => hnd1 (h ▸ hcase)
      cases hg : gs n1 with
      | none => exact ih seen es0 hnd2 hcase hgs
      | some es1 =>
        rw [List.filter_append, List.length_append,
          processNodeStorage_nonshared_count inst n1 n0 cs es1 seen, if_neg hne,
          ih _ es0 hnd2 hcase hgs]
        omega

/-! ## Claim theorems (alert engine) -/

theorem checkRateLimit_activeAlerts (cfg : AlertConfig) (s : ManagerState) (aid : String)
    (now : Int) : ((checkRateLimit cfg s aid now).2).activeAlerts = s.activeAlerts := by
  simp only [checkRateLimit]
  split_ifs <;> rfl

theorem createAlertPath_creates (cfg : AlertConfig) (st : ManagerState)
    (aid rid rnm nd inm rtype mtype : String) (value : ℚ) (th : HysteresisThreshold)
    (now : Int) (hrec : st.recentAlerts.lookup aid = none) :
    ((createAlertPath cfg st aid rid rnm nd inm rtype mtype value th now).1).activeAlerts.lookup aid =
      some { id := aid, atype := mtype,
             level := if th.trigger + 10 ≤ value then AlertLevel.critical else AlertLevel.warning,
             resourceId := rid, resourceName := rnm, node := nd, instanceName := inm,
             value := value, threshold := th.trigger, startTime := now, lastSeen := now } ∧
    AEvent.created aid
        (if th.trigger + 10 ≤ value then AlertLevel.critical else AlertLevel.warning) ∈
      (createAlertPath cfg st aid rid rnm nd inm rtype mtype value th now).2 := by
  simp only [createAlertPath, hrec]
  simp only [Bool.false_eq_true, if_false]
  constructor
  · split_ifs <;> simp [checkRateLimit_activeAlerts, lookup_setA_same]
  · split_ifs <;> simp

theorem checkMetric_creates (cfg : AlertConfig) (st : ManagerState)
    (rid rnm nd inm rtype mtype : String) (value : ℚ) (th : HysteresisThreshold) (now : Int)
    (htr : 0 < th.trigger)
    (hsup : st.suppressedUntil.lookup (rid ++ "-" ++ mtype) = none)
    (hact : st.activeAlerts.lookup (rid ++ "-" ++ mtype) = none)
    (htt : cfg.timeThreshold = 0)
    (hrec : st.recentAlerts.lookup (rid ++ "-" ++ mtype) = none)
    (hval : th.trigger ≤ value) :
    ((checkMetric cfg st rid rnm nd inm rtype mtype value (some th) now).1).activeAlerts.lookup
        (rid ++ "-" ++ mtype) =
      some { id := rid ++ "-" ++ mtype, atype := mtype,
             level := if th.trigger + 10 ≤ value then AlertLevel.critical else AlertLevel.warning,
             resourceId := rid, resourceName := rnm, node := nd, instanceName := inm,
             value := value, threshold := th.trigger, startTime := now, lastSeen := now } ∧
    AEvent.created (rid ++ "-" ++ mtype)
        (if th.trigger + 10 ≤ value then AlertLevel.critical else AlertLevel.warning) ∈
      (checkMetric cfg st rid rnm nd inm rtype mtype value (some th) now).2 := by
  have h1 : ¬ th.trigger ≤ 0 := not_le.mpr htr
  have h2 : ¬ 0 < cfg.timeThreshold := by omega
  simp only [checkMetric, h1, if_false, hsup, hact, htt, hval, if_pos, h2]
  exact createAlertPath_creates cfg st _ rid rnm nd inm rtype mtype value th now hrec


theorem checkMetric_update (cfg : AlertConfig) (st : ManagerState)
    (rid rnm nd inm rtype mtype : String) (value : ℚ) (th : HysteresisThreshold) (now : Int)
    (ex : Alert)
    (htr : 0 < th.trigger)
    (hsup : st.suppressedUntil.lookup (rid ++ "-" ++ mtype) = none)
    (hact : st.activeAlerts.lookup (rid ++ "-" ++ mtype) = some ex)
    (hval : th.trigger ≤ value) :
    ((checkMetric cfg st rid rnm nd inm rtype mtype value (some th) now).1).activeAlerts.lookup
        (rid ++ "-" ++ mtype) =
      some { ex with lastSeen := now, value := value,
                     level := if th.trigger + 10 ≤ value then AlertLevel.critical
                              else AlertLevel.warning } ∧
    (checkMetric cfg st rid rnm nd inm rtype mtype value (some th) now).2 = [] := by
  have h1 : ¬ th.trigger ≤ 0 := not_le.mpr htr
  simp only [checkMetric, h1, if_false, hsup, hact, hval, if_pos]
  simp [lookup_setA_same]

theorem checkMetric_resolves (cfg : AlertConfig) (st : ManagerState)
    (rid rnm nd inm rtype mtype : String) (value : ℚ) (th : HysteresisThreshold) (now : Int)
    (ex : Alert)
    (htr : 0 < th.trigger) (hcl : 0 < th.clear)
    (hsup : st.suppressedUntil.lookup (rid ++ "-" ++ mtype) = none)
    (hact : st.activeAlerts.lookup (rid ++ "-" ++ mtype) = some ex)
    (hval : value < th.trigger) (hle : value ≤ th.clear) :
    ((checkMetric cfg st rid rnm nd inm rtype mtype value (some th) now).1).activeAlerts.lookup
        (rid ++ "-" ++ mtype) = none ∧
    ((checkMetric cfg st rid rnm nd inm rtype mtype value (some th) now).1).recentlyResolved.lookup
        (rid ++ "-" ++ mtype) = some ⟨ex, now⟩ ∧
    (checkMetric cfg st rid rnm nd inm rtype mtype value (some th) now).2 =
      (if st.hasOnResolved then [AEvent.resolvedCb (rid ++ "-" ++ mtype)] else []) := by
  have h1 : ¬ th.trigger ≤ 0 := not_le.mpr htr
  have h2 : ¬ th.trigger ≤ value := not_le.mpr hval
  have h3 : ¬ th.clear ≤ 0 := not_le.mpr hcl
  simp only [checkMetric, h1, if_false, hsup, hact, h2, h3, hle, if_pos]
  by_cases hp : (List.lookup (rid ++ "-" ++ mtype) st.pendingAlerts).isSome <;>
    by_cases hcb : st.hasOnResolved = true <;>
      [skip; (replace hcb : st.hasOnResolved = false := by simpa using hcb);
       skip; (replace hcb : st.hasOnResolved = false := by simpa using hcb)] <;>
    simp only [hp, hcb, if_true, if_false, Bool.false_eq_true] <;>
    exact ⟨lookup_delA_same _ _, lookup_setA_same _ _ _, trivial⟩

theorem checkMetric_no_resolve (cfg : AlertConfig) (st : ManagerState)
    (rid rnm nd inm rtype mtype : String) (value : ℚ) (th : HysteresisThreshold) (now : Int)
    (ex : Alert)
    (htr : 0 < th.trigger) (hcl : 0 < th.clear)
    (hsup : st.suppressedUntil.lookup (rid ++ "-" ++ mtype) = none)
    (hact : st.activeAlerts.lookup (rid ++ "-" ++ mtype) = some ex)
    (hval : value < th.trigger) (hgt : th.clear < value) :
    ((checkMetric cfg st rid rnm nd inm rtype mtype value (some th) now).1).activeAlerts.lookup
        (rid ++ "-" ++ mtype) = some ex ∧
    (checkMetric cfg st rid rnm nd inm rtype mtype value (some th) now).2 = [] := by
  have h1 : ¬ th.trigger ≤ 0 := not_le.mpr htr
  have h2 : ¬ th.trigger ≤ value := not_le.mpr hval
  have h3 : ¬ th.clear ≤ 0 := not_le.mpr hcl
  have h4 : ¬ value ≤ th.clear := not_le.mpr hgt
  simp only [checkMetric, h1, if_false, hsup, hact, h2, h3, h4, if_pos]
  split_ifs <;> simp [hact]

theorem checkMetric_pending_start (cfg : AlertConfig) (st : ManagerState)
    (rid rnm nd inm rtype mtype : String) (value : ℚ) (th : HysteresisThreshold) (now : Int)
    (htr : 0 < th.trigger)
    (hsup : st.suppressedUntil.lookup (rid ++ "-" ++ mtype) = none)
    (hact : st.activeAlerts.lookup (rid ++ "-" ++ mtype) = none)
    (htt : 0 < cfg.timeThreshold)
    (hpend : st.pendingAlerts.lookup (rid ++ "-" ++ mtype) = none)
    (hval : th.trigger ≤ value) :
    (checkMetric cfg st rid rnm nd inm rtype mtype value (some th) now).1 =
      {st with pendingAlerts := setA (rid ++ "-" ++ mtype) now st.pendingAlerts} ∧
    (checkMetric cfg st rid rnm nd inm rtype mtype value (some th) now).2 = [] := by
  have h1 : ¬ th.trigger ≤ 0 := not_le.mpr htr
  simp only [checkMetric, h1, if_false, hsup, hact, htt, hpend, hval, if_pos]
  simp

theorem checkMetric_pending_wait (cfg : AlertConfig) (st : ManagerState)
    (rid rnm nd inm rtype mtype : String) (value : ℚ) (th : HysteresisThreshold)
    (now pendingTime : Int)
    (htr : 0 < th.trigger)
    (hsup : st.suppressedUntil.lookup (rid ++ "-" ++ mtype) = none)
    (hact : st.activeAlerts.lookup (rid ++ "-" ++ mtype) = none)
    (htt : 0 < cfg.timeThreshold)
    (hpend : st.pendingAlerts.lookup (rid ++ "-" ++ mtype) = some pendingTime)
    (hwait : now - pendingTime < cfg.timeThreshold)
    (hval : th.trigger ≤ value) :
    (checkMetric cfg st rid rnm nd inm rtype mtype value (some th) now) = (st, []) := by
  have h1 : ¬ th.trigger ≤ 0 := not_le.mpr htr
  have h2 : ¬ cfg.timeThreshold ≤ now - pendingTime := not_le.mpr hwait
  simp only [checkMetric, h1, if_false, hsup, hact, htt, hpend, h2, hval, if_pos]
  simp

theorem checkRateLimit_pendingAlerts (cfg : AlertConfig) (s : ManagerState) (aid : String)
    (now : Int) : ((checkRateLimit cfg s aid now).2).pendingAlerts = s.pendingAlerts := by
  simp only [checkRateLimit]
  split_ifs <;> rfl

theorem createAlertPath_pendingAlerts (cfg : AlertConfig) (st : ManagerState)
    (aid rid rnm nd inm rtype mtype : String) (value : ℚ) (th : HysteresisThreshold)
    (now : Int) :
    ((createAlertPath cfg st aid rid rnm nd inm rtype mtype value th now).1).pendingAlerts =
      st.pendingAlerts := by
  simp only [createAlertPath]
  split_ifs <;> simp [checkRateLimit_pendingAlerts]

theorem checkMetric_pending_fire (cfg : AlertConfig) (st : ManagerState)
    (rid rnm nd inm rtype mtype : String) (value : ℚ) (th : HysteresisThreshold)
    (now pendingTime : Int)
    (htr : 0 < th.trigger)
    (hsup : st.suppressedUntil.lookup (rid ++ "-" ++ mtype) = none)
    (hact : st.activeAlerts.lookup (rid ++ "-" ++ mtype) = none)
    (htt : 0 < cfg.timeThreshold)
    (hpend : st.pendingAlerts.lookup (rid ++ "-" ++ mtype) = some pendingTime)
    (hmet : cfg.timeThreshold ≤ now - pendingTime)
    (hrec : st.recentAlerts.lookup (rid ++ "-" ++ mtype) = none)
    (hval : th.trigger ≤ value) :
    ((checkMetric cfg st rid rnm nd inm rtype mtype value (some th) now).1).activeAlerts.lookup
        (rid ++ "-" ++ mtype) =
      some { id := rid ++ "-" ++ mtype, atype := mtype,
             level := if th.trigger + 10 ≤ value then AlertLevel.critical else AlertLevel.warning,
             resourceId := rid, resourceName := rnm, node := nd, instanceName := inm,
             value := value, threshold := th.trigger, startTime := now, lastSeen := now } ∧
    ((checkMetric cfg st rid rnm nd inm rtype mtype value (some th) now).1).pendingAlerts.lookup
        (rid ++ "-" ++ mtype) = none ∧
    AEvent.created (rid ++ "-" ++ mtype)
        (if th.trigger + 10 ≤ value then AlertLevel.critical else AlertLevel.warning) ∈
      (checkMetric cfg st rid rnm nd inm rtype mtype value (some th) now).2 := by
  have h1 : ¬ th.trigger ≤ 0 := not_le.mpr htr
  simp only [checkMetric, h1, if_false, hsup, hact, htt, hpend, hmet, hval, if_pos]
  refine ⟨?_, ?_, ?_⟩
  · exact (createAlertPath_creates cfg _ _ rid rnm nd inm rtype mtype value th now
      (by simpa using hrec)).1
  · simp only [Bool.false_eq_true, if_false, createAlertPath_pendingAlerts]
    exact lookup_delA_same _ _
  · exact (createAlertPath_creates cfg _ _ rid rnm nd inm rtype mtype value th now
      (by simpa using hrec)).2

theorem checkMetric_below_pending (cfg : AlertConfig) (st : ManagerState)
    (rid rnm nd inm rtype mtype : String) (value : ℚ) (th : HysteresisThreshold) (now : Int)
    (htr : 0 < th.trigger)
    (hsup : st.suppressedUntil.lookup (rid ++ "-" ++ mtype) = none)
    (hact : st.activeAlerts.lookup (rid ++ "-" ++ mtype) = none)
    (hval : value < th.trigger) :
    ((checkMetric cfg st rid rnm nd inm rtype mtype value (some th) now).1).pendingAlerts.lookup
        (rid ++ "-" ++ mtype) = none ∧
    ((checkMetric cfg st rid rnm nd inm rtype mtype value (some th) now).1).activeAlerts =
      st.activeAlerts ∧
    (checkMetric cfg st rid rnm nd inm rtype mtype value (some th) now).2 = [] := by
  have h1 : ¬ th.trigger ≤ 0 := not_le.mpr htr
  have h2 : ¬ th.trigger ≤ value := not_le.mpr hval
  simp only [checkMetric, h1, hsup, hact, h2, if_pos, if_false, Bool.false_eq_true]
  by_cases hp : (List.lookup (rid ++ "-" ++ mtype) st.pendingAlerts).isSome
  · simp only [hp, if_true]
    exact ⟨lookup_delA_same _ _, trivial, trivial⟩
  · simp only [hp, if_false, Bool.false_eq_true]
    have hnone : List.lookup (rid ++ "-" ++ mtype) st.pendingAlerts = none := by
      cases hx : List.lookup (rid ++ "-" ++ mtype) st.pendingAlerts
      · rfl
      · exact absurd (by simp [hx]) hp
    exact ⟨hnone, trivial, trivial⟩

/-- **C1.** Hysteresis behaviour of `checkMetric`: with no active alert and
`value ≥ trigger` (no pending wait, suppression or dedup applying), an alert
is created for `resourceId-metricType` with level critical exactly when
`value ≥ trigger + 10` and warning otherwise; with an active alert and
`value ≥ trigger`, its `lastSeen`, `value` and `level` are updated; with
`value < trigger`, an active alert is resolved (removed from the active set,
pushed into `recentlyResolved`, resolved callback fired) exactly when
`value ≤ clear`; and on `trigger = 80`, `clear = 75` the sample trace
`[70, 80, 82, 78, 76, 75, 74]` creates the alert at the sample 80 and
resolves it at the sample 75. -/
theorem C1_checkMetric_hysteresis (cfg : AlertConfig) (st : ManagerState)
    (rid rnm nd inm rtype mtype : String) (value : ℚ) (th : HysteresisThreshold) (now : Int)
    (htr : 0 < th.trigger) (hcl : 0 < th.clear)
    (hsup : st.suppressedUntil.lookup (rid ++ "-" ++ mtype) = none)
    (htt : cfg.timeThreshold = 0)
    (hrec : st.recentAlerts.lookup (rid ++ "-" ++ mtype) = none)
    (hcb : st.hasOnResolved = true) :
    (st.activeAlerts.lookup (rid ++ "-" ++ mtype) = none → th.trigger ≤ value →
      ∃ a : Alert,
        ((checkMetric cfg st rid rnm nd inm rtype mtype value (some th) now).1).activeAlerts.lookup
            (rid ++ "-" ++ mtype) = some a ∧
        a.value = value ∧
        a.level = (if th.trigger + 10 ≤ value then AlertLevel.critical else AlertLevel.warning) ∧
        AEvent.created (rid ++ "-" ++ mtype) a.level ∈
          (checkMetric cfg st rid rnm nd inm rtype mtype value (some th) now).2) ∧
    (∀ ex : Alert, st.activeAlerts.lookup (rid ++ "-" ++ mtype) = some ex → th.trigger ≤ value →
      ((checkMetric cfg st rid rnm nd inm rtype mtype value (some th) now).1).activeAlerts.lookup
          (rid ++ "-" ++ mtype) =
        some { ex with lastSeen := now, value := value,
                       level := if th.trigger + 10 ≤ value then AlertLevel.critical
                                else AlertLevel.warning }) ∧
    (∀ ex : Alert, st.activeAlerts.lookup (rid ++ "-" ++ mtype) = some ex → value < th.trigger →
      ((((checkMetric cfg st rid rnm nd inm rtype mtype value (some th) now).1).activeAlerts.lookup
            (rid ++ "-" ++ mtype) = none ∧
        ((checkMetric cfg st rid rnm nd inm rtype mtype value (some th) now).1).recentlyResolved.lookup
            (rid ++ "-" ++ mtype) = some ⟨ex, now⟩ ∧
        AEvent.resolvedCb (rid ++ "-" ++ mtype) ∈
          (checkMetric cfg st rid rnm nd inm rtype mtype value (some th) now).2) ↔
       value ≤ th.clear)) ∧
    metricEventTrace scenarioCfg "lab-px1-100" "guest" "px1" "lab" "VM" "cpu" (some ⟨80, 75⟩)
      scenarioSt [(0, 70), (10, 80), (20, 82), (30, 78), (40, 76), (50, 75), (60, 74)] =
      [[], [AEvent.created "lab-px1-100-cpu" AlertLevel.warning,
            AEvent.notified "lab-px1-100-cpu"],
       [], [], [], [AEvent.resolvedCb "lab-px1-100-cpu"], []] := by
  refine ⟨?_, ?_, ?_, ?_⟩
  · intro hact hval
    obtain ⟨h1, h2⟩ := checkMetric_creates cfg st rid rnm nd inm rtype mtype value th now
      htr hsup hact htt hrec hval
    exact ⟨_, h1, rfl, rfl, h2⟩
  · intro ex hact hval
    exact (checkMetric_update cfg st rid rnm nd inm rtype mtype value th now ex
      htr hsup hact hval).1
  · intro ex hact hval
    constructor
    · intro hres
      by_contra hgt
      have hgt' : th.clear < value := not_le.mp hgt
      have := (checkMetric_no_resolve cfg st rid rnm nd inm rtype mtype value th now ex
        htr hcl hsup hact hval hgt').1
      rw [this] at hres
      exact Option.noConfusion hres.1
    · intro hle
      obtain ⟨h1, h2, h3⟩ := checkMetric_resolves cfg st rid rnm nd inm rtype mtype value th now ex
        htr hcl hsup hact hval hle
      refine ⟨h1, h2, ?_⟩
      rw [h3, hcb]
      simp
  · norm_num [metricEventTrace, checkMetric, createAlertPath, checkRateLimit,
      scenarioCfg, scenarioSt, setA, delA, qabs, List.lookup, List.filter]
    rfl


theorem C1_checkMetric_hysteresis_witness :
    metricEventTrace scenarioCfg "lab-px1-100" "guest" "px1" "lab" "VM" "cpu" (some ⟨80, 75⟩)
      scenarioSt [(0, 70), (10, 80), (20, 82), (30, 78), (40, 76), (50, 75), (60, 74)] =
      [[], [AEvent.created "lab-px1-100-cpu" AlertLevel.warning,
            AEvent.notified "lab-px1-100-cpu"],
       [], [], [], [AEvent.resolvedCb "lab-px1-100-cpu"], []] :=
  (C1_checkMetric_hysteresis scenarioCfg scenarioSt "g1" "guest" "n1" "lab" "VM" "cpu" 86
    ⟨80, 75⟩ 0 (by norm_num) (by norm_num) rfl rfl rfl rfl).2.2.2

/-- **C4.** Time-threshold confirmation in `checkMetric`: with
`timeThreshold > 0` and no active alert, the first sample at or above the
trigger only records `pendingAlerts[alertId] = now` and creates nothing; a
later above-trigger sample creates the alert exactly when
`now - pending ≥ timeThreshold` (clearing the pending entry); a
below-trigger sample deletes the pending entry; and with a 30 s threshold
and 10 s polling, samples of 86 at t = 0, 10, 20, 30 create the alert at
t = 30, while a sample of 70 at t = 20 clears the pending entry so nothing
is created. -/
theorem C4_timeThreshold (cfg : AlertConfig) (st : ManagerState)
    (rid rnm nd inm rtype mtype : String) (value : ℚ) (th : HysteresisThreshold) (now : Int)
    (htr : 0 < th.trigger)
    (hsup : st.suppressedUntil.lookup (rid ++ "-" ++ mtype) = none)
    (hact : st.activeAlerts.lookup (rid ++ "-" ++ mtype) = none)
    (htt : 0 < cfg.timeThreshold)
    (hrec : st.recentAlerts.lookup (rid ++ "-" ++ mtype) = none) :
    (st.pendingAlerts.lookup (rid ++ "-" ++ mtype) = none → th.trigger ≤ value →
      (checkMetric cfg st rid rnm nd inm rtype mtype value (some th) now).1 =
        {st with pendingAlerts := setA (rid ++ "-" ++ mtype) now st.pendingAlerts} ∧
      (checkMetric cfg st rid rnm nd inm rtype mtype value (some th) now).2 = []) ∧
    (∀ p : Int, st.pendingAlerts.lookup (rid ++ "-" ++ mtype) = some p → th.trigger ≤ value →
      (((∃ a : Alert,
          ((checkMetric cfg st rid rnm nd inm rtype mtype value (some th) now).1).activeAlerts.lookup
            (rid ++ "-" ++ mtype) = some a) ∧
        ((checkMetric cfg st rid rnm nd inm rtype mtype value (some th) now).1).pendingAlerts.lookup
          (rid ++ "-" ++ mtype) = none ∧
        (∃ lvl, AEvent.created (rid ++ "-" ++ mtype) lvl ∈
          (checkMetric cfg st rid rnm nd inm rtype mtype value (some th) now).2)) ↔
       cfg.timeThreshold ≤ now - p)) ∧
    (value < th.trigger →
      ((checkMetric cfg st rid rnm nd inm rtype mtype value (some th) now).1).pendingAlerts.lookup
        (rid ++ "-" ++ mtype) = none ∧
      (checkMetric cfg st rid rnm nd inm rtype mtype value (some th) now).2 = []) ∧
    metricEventTrace scenarioCfgTT "lab-px1-100" "guest" "px1" "lab" "VM" "memory"
      (some ⟨85, 80⟩) scenarioSt [(0, 86), (10, 86), (20, 86), (30, 86)] =
      [[], [], [], [AEvent.created "lab-px1-100-memory" AlertLevel.warning,
                    AEvent.notified "lab-px1-100-memory"]] ∧
    metricEventTrace scenarioCfgTT "lab-px1-100" "guest" "px1" "lab" "VM" "memory"
      (some ⟨85, 80⟩) scenarioSt [(0, 86), (10, 86), (20, 70), (30, 86)] =
      [[], [], [], []] := by
  refine ⟨?_, ?_, ?_, ?_, ?_⟩
  · intro hpend hval
    exact checkMetric_pending_start cfg st rid rnm nd inm rtype mtype value th now
      htr hsup hact htt hpend hval
  · intro p hpend hval
    constructor
    · intro hres
      by_contra hwait
      have hwait' : now - p < cfg.timeThreshold := not_le.mp hwait
      have := checkMetric_pending_wait cfg st rid rnm nd inm rtype mtype value th now p
        htr hsup hact htt hpend hwait' hval
      rw [this] at hres
      obtain ⟨⟨a, ha⟩, _, _⟩ := hres
      rw [hact] at ha
      exact Option.noConfusion ha
    · intro hmet
      obtain ⟨h1, h2, h3⟩ := checkMetric_pending_fire cfg st rid rnm nd inm rtype mtype value th
        now p htr hsup hact htt hpend hmet hrec hval
      exact ⟨⟨_, h1⟩, h2, ⟨_, h3⟩⟩
  · intro hval
    obtain ⟨h1, _, h3⟩ := checkMetric_below_pending cfg st rid rnm nd inm rtype mtype value th now
      htr hsup hact hval
    exact ⟨h1, h3⟩
  · norm_num [metricEventTrace, checkMetric, createAlertPath, checkRateLimit,
      scenarioCfgTT, scenarioCfg, scenarioSt, setA, delA, qabs, List.lookup, List.filter]
    rfl
  · norm_num [metricEventTrace, checkMetric, createAlertPath, checkRateLimit,
      scenarioCfgTT, scenarioCfg, scenarioSt, setA, delA, qabs, List.lookup, List.filter]

theorem C4_timeThreshold_witness :
    metricEventTrace scenarioCfgTT "lab-px1-100" "guest" "px1" "lab" "VM" "memory"
      (some ⟨85, 80⟩) scenarioSt [(0, 86), (10, 86), (20, 70), (30, 86)] =
      [[], [], [], []] :=
  (C4_timeThreshold scenarioCfgTT scenarioSt "g1" "guest" "n1" "lab" "VM" "memory" 86
    ⟨85, 80⟩ 0 (by norm_num) rfl rfl (by norm_num [scenarioCfgTT, scenarioCfg]) rfl).2.2.2.2


theorem mem_of_lookup_eq_some {α : Type} {k : String} {v : α} :
    ∀ {l : List (String × α)}, l.lookup k = some v → (k, v) ∈ l := by
  intro l h
  induction l with
  | nil => simp [List.lookup] at h
  | cons p t ih =>
    obtain ⟨a, b⟩ := p
    rw [List.lookup] at h
    by_cases hk : k = a
    · subst hk
      simp only [beq_self_eq_true, if_true, Option.some.injEq] at h
      subst h
      exact List.mem_cons_self _ _
    · have : (k == a) = false := beq_eq_false_iff_ne.mpr hk
      rw [this] at h
      exact List.mem_cons_of_mem _ (ih h)

/-- **C5.** Node-offline detection: a node counts as offline exactly when
its status is "offline" or its connection health is "error" or "failed";
the first two consecutive offline observations only increment the per-node
counter and create no alert; the third creates the alert
`node-offline-<id>` with level critical; and an observation of the node
back online resets the counter to zero and resolves an existing offline
alert, moving it to `recentlyResolved` and firing the resolved callback. -/
theorem C5_nodeOffline_threeStrikes (st : ManagerState) (n : NodeModel) (now : Int) :
    (nodeIsOffline n = true ↔
      (n.status = "offline" ∨ n.connectionHealth = "error" ∨ n.connectionHealth = "failed")) ∧
    (st.activeAlerts.lookup ("node-offline-" ++ n.id) = none →
      (st.nodeOfflineCount.lookup n.id).getD 0 + 1 < 3 →
      ((checkNodeOffline st n now).1).activeAlerts = st.activeAlerts ∧
      ((checkNodeOffline st n now).1).nodeOfflineCount.lookup n.id =
        some ((st.nodeOfflineCount.lookup n.id).getD 0 + 1) ∧
      (checkNodeOffline st n now).2 = []) ∧
    (st.activeAlerts.lookup ("node-offline-" ++ n.id) = none →
      (st.nodeOfflineCount.lookup n.id).getD 0 = 2 →
      ((checkNodeOffline st n now).1).activeAlerts.lookup ("node-offline-" ++ n.id) =
        some { id := "node-offline-" ++ n.id, atype := "connectivity",
               level := AlertLevel.critical, resourceId := n.id, resourceName := n.name,
               node := n.name, instanceName := n.instanceName, value := 0, threshold := 0,
               startTime := now, lastSeen := 0 } ∧
      AEvent.created ("node-offline-" ++ n.id) AlertLevel.critical ∈
        (checkNodeOffline st n now).2) ∧
    ((((clearNodeOfflineAlert st n now).1).nodeOfflineCount.lookup n.id).getD 0 = 0) ∧
    (∀ a : Alert, st.activeAlerts.lookup ("node-offline-" ++ n.id) = some a →
      st.hasOnResolved = true →
      ((clearNodeOfflineAlert st n now).1).activeAlerts.lookup ("node-offline-" ++ n.id) = none ∧
      ((clearNodeOfflineAlert st n now).1).recentlyResolved.lookup ("node-offline-" ++ n.id) =
        some ⟨a, now⟩ ∧
      AEvent.resolvedCb ("node-offline-" ++ n.id) ∈ (clearNodeOfflineAlert st n now).2) := by
  refine ⟨?_, ?_, ?_, ?_, ?_⟩
  · simp [nodeIsOffline, or_assoc]
  · intro hact hcount
    simp only [checkNodeOffline, hact, hcount, if_true, if_pos]
    refine ⟨by trivial, ?_, by trivial⟩
    exact lookup_setA_same _ _ _
  · intro hact hcount
    have h3 : ¬ ((st.nodeOfflineCount.lookup n.id).getD 0 + 1 < 3) := by omega
    simp only [checkNodeOffline, hact, h3, if_false]
    refine ⟨?_, ?_⟩
    · split_ifs <;> exact lookup_setA_same _ _ _
    · split_ifs <;> simp
  · simp only [clearNodeOfflineAlert]
    by_cases hc : 0 < (st.nodeOfflineCount.lookup n.id).getD 0
    · simp only [hc, if_true]
      cases hl : List.lookup ("node-offline-" ++ n.id)
          ({st with nodeOfflineCount := delA n.id st.nodeOfflineCount} :
            ManagerState).activeAlerts with
      | none => simp [lookup_delA_same]
      | some a =>
        split_ifs <;> simp [lookup_delA_same]
    · simp only [hc, if_false]
      have h0 : (st.nodeOfflineCount.lookup n.id).getD 0 = 0 := by omega
      cases hl : List.lookup ("node-offline-" ++ n.id) st.activeAlerts with
      | none => simpa using h0
      | some a => split_ifs <;> simpa using h0
  · intro a hact hcb
    simp only [clearNodeOfflineAlert]
    by_cases hc : 0 < (st.nodeOfflineCount.lookup n.id).getD 0
    · simp only [hc, if_true]
      have hact' : List.lookup ("node-offline-" ++ n.id)
          ({st with nodeOfflineCount := delA n.id st.nodeOfflineCount} :
            ManagerState).activeAlerts = some a := hact
      rw [hact']
      simp only [hcb, if_true]
      refine ⟨?_, ?_, by simp⟩
      · exact lookup_delA_same _ _
      · exact lookup_setA_same _ _ _
    · simp only [hc, if_false]
      rw [hact]
      simp only [hcb, if_true]
      refine ⟨?_, ?_, by simp⟩
      · exact lookup_delA_same _ _
      · exact lookup_setA_same _ _ _

theorem C5_nodeOffline_threeStrikes_witness :
    ((checkNodeOffline { nodeOfflineCount := [("lab-px1", 2)] }
        { id := "lab-px1", name := "px1", instanceName := "lab", status := "offline",
          connectionHealth := "error" } 100).1).activeAlerts.lookup
      ("node-offline-" ++ "lab-px1") ≠ none := by
  obtain ⟨ha, _⟩ := (C5_nodeOffline_threeStrikes
    { nodeOfflineCount := [("lab-px1", 2)] }
    { id := "lab-px1", name := "px1", instanceName := "lab", status := "offline",
      connectionHealth := "error" } 100).2.2.1 rfl rfl
  rw [ha]
  exact Option.noConfusion

/-- **C6.** Stopped guests: a `CheckGuest` call on a guest with status
"stopped" deletes every active alert whose `ResourceID` equals the guest's
id, performs no threshold checks and emits no events, so afterwards no
active alert references the stopped guest's resource id. -/
theorem C6_stoppedGuest_clearsAlerts (cfg : AlertConfig) (st : ManagerState)
    (getThresholds : GuestModel → ThresholdConfig) (guest : GuestModel) (now : Int)
    (hen : cfg.enabled = true) (hstop : guest.status = "stopped") :
    (CheckGuest cfg st getThresholds guest now).1 =
      {st with activeAlerts := st.activeAlerts.filter (fun p => p.2.resourceId != guest.id)} ∧
    (CheckGuest cfg st getThresholds guest now).2 = [] ∧
    (∀ (aid : String) (a : Alert),
      ((CheckGuest cfg st getThresholds guest now).1).activeAlerts.lookup aid = some a →
      a.resourceId ≠ guest.id) := by
  have hb : (guest.status == "stopped") = true := beq_iff_eq.mpr hstop
  simp only [CheckGuest, hen, Bool.not_true, Bool.false_eq_true, if_false, hb, if_true]
  refine ⟨by trivial, by trivial, ?_⟩
  intro aid a hl
  have hmem := mem_of_lookup_eq_some hl
  have := (List.mem_filter.mp hmem).2
  simpa [bne_iff_ne] using this

theorem C6_stoppedGuest_clearsAlerts_witness :
    ((CheckGuest scenarioCfg c6st (fun _ => {}) c6guest 10).1).activeAlerts = [] ∧
    (CheckGuest scenarioCfg c6st (fun _ => {}) c6guest 10).2 = [] := by
  have h := C6_stoppedGuest_clearsAlerts scenarioCfg c6st (fun _ => {}) c6guest 10 rfl rfl
  refine ⟨?_, h.2.1⟩
  rw [h.1]
  rfl


theorem escalateLevelsLoop_noop (now : Int) (aid : String) (hasCb : Bool) :
    ∀ (l : List (Nat × EscalationLevel)) (a : Alert),
      (∀ p ∈ l, ¬ (a.startTime + p.2.after * 60 < now)) →
      escalateLevelsLoop now aid hasCb l (a, []) = (a, []) := by
  intro l
  induction l with
  | nil => intro a _; rfl
  | cons p t ih =>
    intro a hh
    have hp := hh p (List.mem_cons_self _ _)
    simp only [escalateLevelsLoop]
    split_ifs <;>
      first
      | exact absurd (by assumption) hp
      | exact ih a (fun q hq => hh q (List.mem_cons_of_mem _ hq))

theorem escalateOne_noop (levels : List EscalationLevel) (now : Int) (aid : String)
    (hasCb : Bool) (a : Alert)
    (h : ∀ lvl ∈ levels, ¬ (a.startTime + lvl.after * 60 < now)) :
    escalateOne levels now aid hasCb a = (a, []) := by
  unfold escalateOne
  split_ifs
  · rfl
  · apply escalateLevelsLoop_noop
    intro p hp
    apply h
    have hm : p.2 ∈ levels.enum.map Prod.snd := List.mem_map_of_mem Prod.snd hp
    rwa [List.enum_map_snd] at hm

theorem runNodeTrace_frozen (cfg : AlertConfig) (node : NodeModel) (a : Alert) (gap : Int)
    (hgap : ∀ lvl ∈ cfg.schedule.escalation.levels, gap ≤ lvl.after * 60) :
    ∀ (trace : List NodeTraceStep) (st : ManagerState) (s : Int),
      st.activeAlerts = [("node-offline-" ++ node.id, {a with startTime := s})] →
      escGapBounded gap s trace = true →
      ((runNodeTrace cfg node st trace).1).activeAlerts =
        [("node-offline-" ++ node.id, {a with startTime := lastObsTime s trace})] ∧
      (runNodeTrace cfg node st trace).2 = [] := by
  intro trace
  induction trace with
  | nil =>
    intro st s hst _
    exact ⟨by simpa [runNodeTrace, lastObsTime] using hst, rfl⟩
  | cons step rest ih =>
    intro st s hst hgt
    cases step with
    | offlineObs t =>
      have hl : st.activeAlerts.lookup ("node-offline-" ++ node.id) =
          some {a with startTime := s} := by
        rw [hst]; simp [List.lookup]
      have hstep : (checkNodeOffline st node t).1.activeAlerts =
          [("node-offline-" ++ node.id, {a with startTime := t})] ∧
          (checkNodeOffline st node t).2 = [] := by
        simp only [checkNodeOffline, hl]
        refine ⟨?_, by trivial⟩
        show setA ("node-offline-" ++ node.id) _ st.activeAlerts = _
        rw [hst]
        simp [setA]
      have hrest := ih (checkNodeOffline st node t).1 t hstep.1
        (by simpa [escGapBounded] using hgt)
      simp only [runNodeTrace]
      exact ⟨hrest.1, by rw [hstep.2, hrest.2]; rfl⟩
    | escCheck t =>
      have hgt' : t - s ≤ gap ∧ escGapBounded gap s rest = true := by
        simpa [escGapBounded] using hgt
      have hstep : (checkEscalations cfg st t).1.activeAlerts = st.activeAlerts ∧
          (checkEscalations cfg st t).2 = [] := by
        by_cases hen : cfg.schedule.escalation.enabled
        · have hnoop : escalateOne cfg.schedule.escalation.levels t
              ("node-offline-" ++ node.id) st.hasOnEscalate {a with startTime := s} =
              ({a with startTime := s}, []) := by
            apply escalateOne_noop
            intro lvl hlvl
            have h1 := hgap lvl hlvl
            have h2 := hgt'.1
            simp only [not_lt]
            show t ≤ ({a with startTime := s} : Alert).startTime + lvl.after * 60
            simp only []
            omega
          simp only [checkEscalations, hen, Bool.not_true, Bool.false_eq_true, if_false,
            hst, List.map_cons, List.map_nil, hnoop]
          constructor
          · simp
          · simp
        · have hen' : cfg.schedule.escalation.enabled = false := by
            simpa using hen
          simp [checkEscalations, hen']
      have hrest := ih (checkEscalations cfg st t).1 s (by rw [hstep.1, hst]) hgt'.2
      simp only [runNodeTrace]
      refine ⟨by simpa [lastObsTime] using hrest.1, by rw [hstep.2, hrest.2]; rfl⟩

/-- **C9.** While a node-offline alert is active, each further offline
observation overwrites its `StartTime` with the current time, so a node
polled more often than every escalation interval never escalates: over any
interleaving of offline observations and escalation checks in which each
check happens within `gap ≤ After·60` seconds of the last observation, the
alert's `StartTime` always equals the last observation time, its state is
otherwise untouched, and no escalation event is ever emitted. -/
theorem C9_nodeOffline_neverEscalates (cfg : AlertConfig) (node : NodeModel)
    (st : ManagerState) (now : Int) (a : Alert) (gap : Int)
    (trace : List NodeTraceStep) (s : Int) :
    (st.activeAlerts.lookup ("node-offline-" ++ node.id) = some a →
      ((checkNodeOffline st node now).1).activeAlerts.lookup ("node-offline-" ++ node.id) =
        some {a with startTime := now} ∧
      (checkNodeOffline st node now).2 = []) ∧
    ((∀ lvl ∈ cfg.schedule.escalation.levels, gap ≤ lvl.after * 60) →
      st.activeAlerts = [("node-offline-" ++ node.id, {a with startTime := s})] →
      escGapBounded gap s trace = true →
      ((runNodeTrace cfg node st trace).1).activeAlerts =
        [("node-offline-" ++ node.id, {a with startTime := lastObsTime s trace})] ∧
      (runNodeTrace cfg node st trace).2 = []) := by
  constructor
  · intro hl
    simp only [checkNodeOffline, hl]
    exact ⟨lookup_setA_same _ _ _, trivial⟩
  · intro hgap hst hb
    exact runNodeTrace_frozen cfg node a gap hgap trace st s hst hb

theorem C9_nodeOffline_neverEscalates_witness :
    (runNodeTrace c9cfg c9node c9st
      [NodeTraceStep.offlineObs 10, NodeTraceStep.escCheck 15,
       NodeTraceStep.offlineObs 20, NodeTraceStep.escCheck 28]).2 = [] :=
  (C9_nodeOffline_neverEscalates c9cfg c9node c9st 0 c9alert 8
    [NodeTraceStep.offlineObs 10, NodeTraceStep.escCheck 15,
     NodeTraceStep.offlineObs 20, NodeTraceStep.escCheck 28]
    0).2 (by decide) rfl (by decide) |>.2

theorem handleAuthFail_step (cfg : MonitorConfig) (m : MonitorState) (i : String)
    (e : MonitorErr) (t : Int) (k : Nat)
    (hA : e.isAuth = true)
    (h : (m.authFailures.lookup ("pve-" ++ i)).getD 0 = k) (hk : k + 1 < 5) :
    ((handlePVEGetNodes cfg m i (Except.error e) t).1).authFailures.lookup ("pve-" ++ i) =
      some (k + 1) ∧
    ((handlePVEGetNodes cfg m i (Except.error e) t).1).state.nodes = m.state.nodes ∧
    ((handlePVEGetNodes cfg m i (Except.error e) t).1).state.vms = m.state.vms ∧
    ((handlePVEGetNodes cfg m i (Except.error e) t).1).state.containers = m.state.containers ∧
    ((handlePVEGetNodes cfg m i (Except.error e) t).1).state.storage = m.state.storage ∧
    ((handlePVEGetNodes cfg m i (Except.error e) t).1).state.backupTasks =
      m.state.backupTasks ∧
    ((handlePVEGetNodes cfg m i (Except.error e) t).1).state.storageBackups =
      m.state.storageBackups ∧
    ((handlePVEGetNodes cfg m i (Except.error e) t).1).state.guestSnapshots =
      m.state.guestSnapshots := by
  have hbne : (("pve" : String) != "") = true := rfl
  have hname : ("pve" ++ "-" ++ i) = "pve-" ++ i := rfl
  have hfive : ¬ (5 ≤ (m.authFailures.lookup ("pve-" ++ i)).getD 0 + 1) := by omega
  simp only [handlePVEGetNodes, hA, if_true, recordAuthFailure, hbne, eq_self_iff_true,
    hname, hfive, if_false]
  refine ⟨?_, trivial, trivial, trivial, trivial, trivial, trivial, trivial⟩
  rw [lookup_setA_same, h]

theorem handleAuthFail_fires (cfg : MonitorConfig) (m : MonitorState) (i : String)
    (e : MonitorErr) (t : Int)
    (hA : e.isAuth = true)
    (h : (m.authFailures.lookup ("pve-" ++ i)).getD 0 = 4) :
    ((handlePVEGetNodes cfg m i (Except.error e) t).1).authFailures.lookup ("pve-" ++ i) =
      none ∧
    ((handlePVEGetNodes cfg m i (Except.error e) t).1).state.nodes.lookup i =
      some [{ id := i ++ "-failed", name := i, instanceName := i,
              host := ((cfg.pveInstances.find? (fun c => c.name == i)).map
                (fun c => c.host)).getD "",
              status := "offline", ntype := "node", connectionHealth := "error",
              lastSeen := t }] ∧
    ((handlePVEGetNodes cfg m i (Except.error e) t).1).state.vms.lookup i = some [] ∧
    ((handlePVEGetNodes cfg m i (Except.error e) t).1).state.containers.lookup i = some [] ∧
    ((handlePVEGetNodes cfg m i (Except.error e) t).1).state.storage.lookup i = some [] ∧
    ((handlePVEGetNodes cfg m i (Except.error e) t).1).state.backupTasks.lookup i =
      some [] ∧
    ((handlePVEGetNodes cfg m i (Except.error e) t).1).state.storageBackups.lookup i =
      some [] ∧
    ((handlePVEGetNodes cfg m i (Except.error e) t).1).state.guestSnapshots.lookup i =
      some [] ∧
    ((handlePVEGetNodes cfg m i (Except.error e) t).1).state.connectionHealth.lookup i =
      some false := by
  have hbne : (("pve" : String) != "") = true := rfl
  have hbpve : (("pve" : String) == "pve") = true := rfl
  have hname : ("pve" ++ "-" ++ i) = "pve-" ++ i := rfl
  have hfive : (5 ≤ (m.authFailures.lookup ("pve-" ++ i)).getD 0 + 1) := by omega
  simp only [handlePVEGetNodes, hA, if_true, recordAuthFailure, hbne, hbpve,
    eq_self_iff_true, hname, hfive, removeFailedPVENode]
  refine ⟨lookup_delA_same _ _, ?_, ?_, ?_, ?_, ?_, ?_, ?_, ?_⟩ <;>
    exact lookup_setA_same _ _ _

theorem handleOk_resets (cfg : MonitorConfig) (m : MonitorState) (i : String)
    (ns : List PVENodeRec) (t : Int) :
    (((handlePVEGetNodes cfg m i (Except.ok ns) t).1).authFailures.lookup
      ("pve-" ++ i)).getD 0 = 0 ∧
    (handlePVEGetNodes cfg m i (Except.ok ns) t).2 = true := by
  have hbne : (("pve" : String) != "") = true := rfl
  have hname : ("pve" ++ "-" ++ i) = "pve-" ++ i := rfl
  simp only [handlePVEGetNodes, resetAuthFailures, hbne, eq_self_iff_true, if_true, hname]
  refine ⟨?_, trivial⟩
  cases hx : m.authFailures.lookup ("pve-" ++ i) with
  | none => simp [hx]
  | some k =>
    by_cases hk : 0 < k
    · simp only [hx, hk, if_true]
      rw [lookup_delA_same]
      rfl
    · have hk0 : k = 0 := by omega
      simp [hx, hk, hk0]

/-- **C3.** Five consecutive auth-failing `GetNodes` polls lock the instance
out: the node list becomes one synthetic offline node with
`connectionHealth = "error"`, every other per-instance shard is cleared, the
connection health flag is false and the counter is reset; four failures do
not touch the node shard; one successful poll resets the counter. -/
theorem C3_authLockout (cfg : MonitorConfig) (m : MonitorState) (i : String)
    (e : MonitorErr) (t : Int)
    (hA : e.isAuth = true)
    (h0 : (m.authFailures.lookup ("pve-" ++ i)).getD 0 = 0) :
    (∃ n : NodeModel,
      (iterFailingPolls cfg i e 5 t m).state.nodes.lookup i = some [n] ∧
      n.status = "offline" ∧ n.connectionHealth = "error") ∧
    (iterFailingPolls cfg i e 5 t m).state.vms.lookup i = some [] ∧
    (iterFailingPolls cfg i e 5 t m).state.containers.lookup i = some [] ∧
    (iterFailingPolls cfg i e 5 t m).state.storage.lookup i = some [] ∧
    (iterFailingPolls cfg i e 5 t m).state.backupTasks.lookup i = some [] ∧
    (iterFailingPolls cfg i e 5 t m).state.storageBackups.lookup i = some [] ∧
    (iterFailingPolls cfg i e 5 t m).state.guestSnapshots.lookup i = some [] ∧
    (iterFailingPolls cfg i e 5 t m).state.connectionHealth.lookup i = some false ∧
    ((iterFailingPolls cfg i e 5 t m).authFailures.lookup ("pve-" ++ i)).getD 0 = 0 ∧
    (iterFailingPolls cfg i e 4 t m).state.nodes = m.state.nodes ∧
    (iterFailingPolls cfg i e 4 t m).authFailures.lookup ("pve-" ++ i) = some 4 ∧
    (∀ (m' : MonitorState) (ns : List PVENodeRec) (t' : Int),
      (((handlePVEGetNodes cfg m' i (Except.ok ns) t').1).authFailures.lookup
        ("pve-" ++ i)).getD 0 = 0) := by
  have s1 := handleAuthFail_step cfg m i e t 0 hA h0 (by omega)
  have s2 := handleAuthFail_step cfg (handlePVEGetNodes cfg m i (Except.error e) t).1 i e (t + 1) 1 hA
    (by rw [s1.1]; rfl) (by omega)
  have s3 := handleAuthFail_step cfg (handlePVEGetNodes cfg (handlePVEGetNodes cfg m i (Except.error e) t).1 i (Except.error e) (t + 1)).1 i e (t + 1 + 1) 2 hA
    (by rw [s2.1]; rfl) (by omega)
  have s4 := handleAuthFail_step cfg (handlePVEGetNodes cfg (handlePVEGetNodes cfg (handlePVEGetNodes cfg m i (Except.error e) t).1 i (Except.error e) (t + 1)).1 i (Except.error e) (t + 1 + 1)).1 i e (t + 1 + 1 + 1) 3 hA
    (by rw [s3.1]; rfl) (by omega)
  have s5 := handleAuthFail_fires cfg (handlePVEGetNodes cfg (handlePVEGetNodes cfg (handlePVEGetNodes cfg (handlePVEGetNodes cfg m i (Except.error e) t).1 i (Except.error e) (t + 1)).1 i (Except.error e) (t + 1 + 1)).1 i (Except.error e) (t + 1 + 1 + 1)).1 i e (t + 1 + 1 + 1 + 1) hA
    (by rw [s4.1]; rfl)
  have hrun5 : iterFailingPolls cfg i e 5 t m = (handlePVEGetNodes cfg (handlePVEGetNodes cfg (handlePVEGetNodes cfg (handlePVEGetNodes cfg (handlePVEGetNodes cfg m i (Except.error e) t).1 i (Except.error e) (t + 1)).1 i (Except.error e) (t + 1 + 1)).1 i (Except.error e) (t + 1 + 1 + 1)).1 i (Except.error e) (t + 1 + 1 + 1 + 1)).1 := rfl
  have hrun4 : iterFailingPolls cfg i e 4 t m = (handlePVEGetNodes cfg (handlePVEGetNodes cfg (handlePVEGetNodes cfg (handlePVEGetNodes cfg m i (Except.error e) t).1 i (Except.error e) (t + 1)).1 i (Except.error e) (t + 1 + 1)).1 i (Except.error e) (t + 1 + 1 + 1)).1 := rfl
  rw [hrun5, hrun4]
  refine ⟨⟨_, s5.2.1, rfl, rfl⟩, s5.2.2.1, s5.2.2.2.1, s5.2.2.2.2.1, s5.2.2.2.2.2.1,
    s5.2.2.2.2.2.2.1, s5.2.2.2.2.2.2.2.1, s5.2.2.2.2.2.2.2.2, ?_, ?_, ?_, ?_⟩
  · rw [s5.1]
    rfl
  · rw [s4.2.1, s3.2.1, s2.2.1, s1.2.1]
  · rw [s4.1]
  · intro m2 ns t2
    exact (handleOk_resets cfg m2 i ns t2).1

theorem C3_authLockout_witness :
    (iterFailingPolls { pveInstances := [{ name := "badtoken", host := "https://pve1" }] }
      "badtoken" { msg := "401 unauthorized", isAuth := true } 5 0 {}).state.vms.lookup
      "badtoken" = some [] :=
  (C3_authLockout { pveInstances := [{ name := "badtoken", host := "https://pve1" }] } {}
    "badtoken" { msg := "401 unauthorized", isAuth := true } 0 rfl rfl).2.1

theorem collectClusterGuests_eq (instanceName : String) :
    ∀ rs : List ClusterResource,
      (collectClusterGuests instanceName rs).1 =
        (rs.filter (fun r => r.rtype == "qemu" && r.template != 1)).map
          (mkVMFromResource instanceName) ∧
      (collectClusterGuests instanceName rs).2 =
        (rs.filter (fun r => r.rtype == "lxc" && r.template != 1)).map
          (mkCTFromResource instanceName) := by
  intro rs
  induction rs with
  | nil => exact ⟨rfl, rfl⟩
  | cons r rest ih =>
    simp only [collectClusterGuests, List.filter_cons]
    by_cases hq : r.rtype = "qemu"
    · by_cases ht : r.template = 1
      · simp [hq, ht, ih]
      · simp [hq, ht, ih]
    · by_cases hl : r.rtype = "lxc"
      · by_cases ht : r.template = 1
        · simp [hq, hl, ht, ih]
        · simp [hq, hl, ht, ih]
      · simp [hq, hl, ih]

/-- **C10.** The efficient cluster path publishes the VM (container) shard
only when at least one non-template VM (container) was returned; an empty
class leaves the previously published shard untouched, and an error falls
back to traditional polling without touching state. -/
theorem C10_efficientPath_frame (m : MonitorState) (instanceName : String)
    (rs : List ClusterResource) :
    (rs.filter (fun r => r.rtype == "qemu" && r.template != 1) = [] →
      ((pollVMsAndContainersEfficient m instanceName (Except.ok rs)).1).state.vms =
        m.state.vms) ∧
    (rs.filter (fun r => r.rtype == "qemu" && r.template != 1) ≠ [] →
      ((pollVMsAndContainersEfficient m instanceName (Except.ok rs)).1).state.vms.lookup
          instanceName =
        some ((rs.filter (fun r => r.rtype == "qemu" && r.template != 1)).map
          (mkVMFromResource instanceName))) ∧
    (rs.filter (fun r => r.rtype == "lxc" && r.template != 1) = [] →
      ((pollVMsAndContainersEfficient m instanceName (Except.ok rs)).1).state.containers =
        m.state.containers) ∧
    (rs.filter (fun r => r.rtype == "lxc" && r.template != 1) ≠ [] →
      ((pollVMsAndContainersEfficient m instanceName (Except.ok rs)).1).state.containers.lookup
          instanceName =
        some ((rs.filter (fun r => r.rtype == "lxc" && r.template != 1)).map
          (mkCTFromResource instanceName))) ∧
    (pollVMsAndContainersEfficient m instanceName (Except.ok rs)).2 = true ∧
    (∀ err : String, pollVMsAndContainersEfficient m instanceName (Except.error err) =
      (m, false)) := by
  obtain ⟨hv, hc⟩ := collectClusterGuests_eq instanceName rs
  refine ⟨?_, ?_, ?_, ?_, ?_, fun _ => rfl⟩
  · intro hemp
    simp only [pollVMsAndContainersEfficient, hv, hc, hemp, List.map_nil, List.length_nil,
      lt_irrefl, if_false]
    split_ifs <;> rfl
  · intro hne
    have hlen : 0 < (collectClusterGuests instanceName rs).1.length := by
      rw [hv]
      simpa [List.length_pos] using hne
    simp only [pollVMsAndContainersEfficient, hlen, if_true]
    split_ifs <;> simp [lookup_setA_same, hv]
  · intro hemp
    simp only [pollVMsAndContainersEfficient, hv, hc, hemp, List.map_nil, List.length_nil,
      lt_irrefl, if_false]
    split_ifs <;> rfl
  · intro hne
    have hlen : 0 < (collectClusterGuests instanceName rs).2.length := by
      rw [hc]
      simpa [List.length_pos] using hne
    simp only [pollVMsAndContainersEfficient, hlen, if_true]
    split_ifs <;> simp [lookup_setA_same, hc]
  · simp [pollVMsAndContainersEfficient]

theorem C10_efficientPath_frame_witness :
    ((pollVMsAndContainersEfficient c10m "lab" (Except.ok [c10res])).1).state.vms =
      [("lab", [c10vm])] :=
  (C10_efficientPath_frame c10m "lab" [c10res]).1 rfl

theorem getD_mem_of_ne_nil {l : List String} (h : l ≠ []) (k : Nat) :
    l.getD (k % l.length) "" ∈ l := by
  have hlen : 0 < l.length := List.length_pos.mpr h
  have hlt : k % l.length < l.length := Nat.mod_lt _ hlen
  rw [List.getD_eq_getElem l "" hlt]
  exact List.getElem_mem hlt

theorem healthyEndpoints_subset (cc : CCState) : healthyEndpoints cc ⊆ cc.endpoints :=
  fun _ hx => (List.mem_filter.mp hx).1

theorem failoverLoop_calls_le (env : CCEnv) :
    ∀ (fuel : Nat) (cc : CCState),
      ((failoverLoop env fuel cc).2.2.filter isCalledEvent).length ≤ fuel := by
  intro fuel
  induction fuel with
  | zero => intro cc; simp [failoverLoop]
  | succ n ih =>
    intro cc
    simp only [failoverLoop]
    cases hg : getHealthyClient env cc with
    | mk cc1 res =>
      cases res with
      | error e => simp
      | ok ep =>
        cases hc : env.call ep with
        | none => simp [hc, isCalledEvent]
        | some err =>
          by_cases h1 : isNodeSpecificError err = true
          · simp [hc, h1, isCalledEvent]
          · by_cases h2 : IsAuthError err = true
            · simp [hc, h1, h2, isCalledEvent]
            · simp only [hc, h1, h2, Bool.false_eq_true, if_false]
              simp only [List.filter_cons, isCalledEvent, eq_self_iff_true, if_true,
                Bool.false_eq_true, if_false, List.length_cons]
              have := ih {cc1 with nodeHealth := setA ep false cc1.nodeHealth}
              omega

theorem failoverLoop_demotes (env : CCEnv) :
    ∀ (fuel : Nat) (cc : CCState) (ep err : String),
      env.call ep = some err →
      (isNodeSpecificError err || IsAuthError err) = false →
      CEvent.called ep ∈ (failoverLoop env fuel cc).2.2 →
      CEvent.demoted ep ∈ (failoverLoop env fuel cc).2.2 := by
  intro fuel
  induction fuel with
  | zero => intro cc ep err _ _ hm; simp [failoverLoop] at hm
  | succ n ih =>
    intro cc ep err hcall hclass hm
    simp only [failoverLoop] at hm ⊢
    cases hg : getHealthyClient env cc with
    | mk cc1 res =>
      rw [hg] at hm
      cases res with
      | error e => simp at hm
      | ok ep2 =>
        dsimp only at hm ⊢
        cases hc : env.call ep2 with
        | none =>
          rw [hc] at hm
          simp at hm
          obtain rfl := hm
          rw [hcall] at hc
          exact absurd hc (by simp)
        | some err2 =>
          rw [hc] at hm
          by_cases h1 : isNodeSpecificError err2 = true
          · simp [h1] at hm
            obtain rfl := hm
            rw [hcall] at hc
            obtain rfl : err = err2 := by simpa using hc
            simp [h1] at hclass
          · by_cases h2 : IsAuthError err2 = true
            · simp [h1, h2] at hm
              obtain rfl := hm
              rw [hcall] at hc
              obtain rfl : err = err2 := by simpa using hc
              simp [h2] at hclass
            · simp only [h1, h2, Bool.false_eq_true, if_false] at hm ⊢
              rcases List.mem_cons.mp hm with heq | hm2
              · obtain rfl : ep = ep2 := by
                  have := heq; injection this
                exact List.mem_cons_of_mem _ (List.mem_cons_self _ _)
              · rcases List.mem_cons.mp hm2 with heq | hm3
                · exact absurd heq (by simp)
                · exact List.mem_cons_of_mem _ (List.mem_cons_of_mem _
                    (ih _ ep err hcall hclass hm3))

/-- C2: in `executeWithFailover`, when at least one endpoint is healthy and
the wrapped call on the selected endpoint fails with a node-specific error
(body containing "595", or "500" with "hostname lookup" or
"Name or service not known") or with an authentication error ("authentication",
"401" or "403"), the error is returned to the caller immediately, the call is
attempted exactly once, and the health map is unchanged, so every endpoint
that was healthy before the call remains healthy; whereas whenever the call
on some endpoint fails with any other error, that endpoint is marked
unhealthy (a `demoted` event follows its `called` event) and the loop moves
on to the next healthy endpoint, with at most `len(endpoints)` call attempts
in total. -/
theorem C2_executeWithFailover (env : CCEnv) (cc : CCState) :
    (∀ cc1 ep err,
        healthyEndpoints cc ≠ [] →
        getHealthyClient env cc = (cc1, Except.ok ep) →
        env.call ep = some err →
        (isNodeSpecificError err || IsAuthError err) = true →
        executeWithFailover env cc = (cc1, Except.error err, [CEvent.called ep]) ∧
        cc1.nodeHealth = cc.nodeHealth ∧
        healthyEndpoints cc1 = healthyEndpoints cc) ∧
    (∀ ep err,
        env.call ep = some err →
        (isNodeSpecificError err || IsAuthError err) = false →
        CEvent.called ep ∈ (executeWithFailover env cc).2.2 →
        CEvent.demoted ep ∈ (executeWithFailover env cc).2.2) ∧
    ((executeWithFailover env cc).2.2.filter isCalledEvent).length ≤
      cc.endpoints.length := by
  refine ⟨?_, ?_, failoverLoop_calls_le env cc.endpoints.length cc⟩
  · intro cc1 ep err hne hg hc hcls
    have hempty : (healthyEndpoints cc).isEmpty = false := by
      cases hE : healthyEndpoints cc with
      | nil => exact absurd hE hne
      | cons a l => rfl
    have hframe : cc1.nodeHealth = cc.nodeHealth ∧ cc1.endpoints = cc.endpoints := by
      simp only [getHealthyClient, hempty, Bool.false_eq_true, if_false] at hg
      split_ifs at hg with h0 h1
      · obtain ⟨rfl, -⟩ : cc = cc1 ∧ _ := by
          simpa only [Prod.mk.injEq] using hg
        exact ⟨rfl, rfl⟩
      · obtain ⟨h, -⟩ := (Prod.mk.injEq _ _ _ _).mp hg
        rw [← h]
        exact ⟨rfl, rfl⟩
      · obtain ⟨-, h⟩ := (Prod.mk.injEq _ _ _ _).mp hg
        exact absurd h (by simp)
    have hepne : cc.endpoints ≠ [] := by
      intro h0
      exact hne (by simp [healthyEndpoints, h0])
    obtain ⟨m, hm⟩ : ∃ m, cc.endpoints.length = m + 1 := by
      cases hL : cc.endpoints.length with
      | zero => exact absurd (List.length_eq_zero.mp hL) hepne
      | succ m => exact ⟨m, rfl⟩
    have hhe : healthyEndpoints cc1 = healthyEndpoints cc := by
      simp only [healthyEndpoints, hframe.1, hframe.2]
    refine ⟨?_, hframe.1, hhe⟩
    simp only [executeWithFailover, hm, failoverLoop]
    rw [hg]
    dsimp only
    rw [hc]
    dsimp only
    by_cases h1 : isNodeSpecificError err = true
    · simp [h1]
    · have h2 : IsAuthError err = true := by
        cases hn : isNodeSpecificError err with
        | true => exact absurd hn h1
        | false => simpa [hn] using hcls
      simp [h1, h2]
  · intro ep err hc hcls hm
    exact failoverLoop_demotes env cc.endpoints.length cc ep err hc hcls hm

theorem C2_executeWithFailover_witness :
    (executeWithFailover c2env c2cc =
      (c2cc, Except.error "595 no ticket for hostname lookup", [CEvent.called "e1"]) ∧
     c2cc.nodeHealth = c2cc.nodeHealth ∧
     healthyEndpoints c2cc = healthyEndpoints c2cc) ∧
    CEvent.demoted "e1" ∈ (executeWithFailover c2envB c2cc).2.2 ∧
    ((executeWithFailover c2env c2cc).2.2.filter isCalledEvent).length ≤
      c2cc.endpoints.length := by
  refine ⟨(C2_executeWithFailover c2env c2cc).1 c2cc "e1"
      "595 no ticket for hostname lookup" (by decide) rfl rfl (by decide),
    (C2_executeWithFailover c2envB c2cc).2.1 "e1" "boom" rfl (by decide)
      (by decide),
    (C2_executeWithFailover c2env c2cc).2.2⟩

/-- C8: each add operation of the metrics history (`AddGuestMetric`,
`AddNodeMetric`, `AddStorageMetric`) updates exactly the series selected by
the metric type to `appendMetric` of the old series and the new point; and
`appendMetric` appends then prunes: its result always has length at most
`maxDataPoints`, it is a suffix of the old series with the point appended
(so pruning discards oldest first), and — when the series timestamps are
nondecreasing and the new point is within the retention window — every
surviving point is newer than `now` minus the retention time, so after any
sequence of adds every series is bounded by `maxDataPoints` and holds no
point older than the retention window as of the last add to it. -/
theorem C8_metricsHistory_appendsAndPrunes (mh : MetricsHistory) (id mtype : String)
    (value : ℚ) (timestamp now : Int) :
    (mtype ∈ ["cpu", "memory", "disk", "diskread", "diskwrite", "netin", "netout"] →
      guestSeries (((AddGuestMetric mh id mtype value timestamp now).guestMetrics.lookup
          id).getD {}) mtype =
        appendMetric mh.maxDataPoints mh.retentionTime now
          (guestSeries ((mh.guestMetrics.lookup id).getD {}) mtype) ⟨timestamp, value⟩) ∧
    (mtype ∈ ["cpu", "memory", "disk"] →
      guestSeries (((AddNodeMetric mh id mtype value timestamp now).nodeMetrics.lookup
          id).getD {}) mtype =
        appendMetric mh.maxDataPoints mh.retentionTime now
          (guestSeries ((mh.nodeMetrics.lookup id).getD {}) mtype) ⟨timestamp, value⟩) ∧
    (mtype ∈ ["usage", "used", "total", "avail"] →
      storageSeries (((AddStorageMetric mh id mtype value timestamp now).storageMetrics.lookup
          id).getD {}) mtype =
        appendMetric mh.maxDataPoints mh.retentionTime now
          (storageSeries ((mh.storageMetrics.lookup id).getD {}) mtype) ⟨timestamp, value⟩) ∧
    (∀ (metrics : List MetricPoint) (point : MetricPoint),
      (appendMetric mh.maxDataPoints mh.retentionTime now metrics point).length ≤
        mh.maxDataPoints ∧
      (appendMetric mh.maxDataPoints mh.retentionTime now metrics point) <:+
        metrics ++ [point] ∧
      (List.Pairwise (fun a b => a.timestamp ≤ b.timestamp) (metrics ++ [point]) →
        now - mh.retentionTime < point.timestamp →
        ∀ q ∈ appendMetric mh.maxDataPoints mh.retentionTime now metrics point,
          now - mh.retentionTime < q.timestamp)) := by
  refine ⟨?_, ?_, ?_, ?_⟩
  · intro hm
    rcases show mtype = "cpu" ∨ mtype = "memory" ∨ mtype = "disk" ∨ mtype = "diskread" ∨
        mtype = "diskwrite" ∨ mtype = "netin" ∨ mtype = "netout" by simpa using hm with
      rfl | rfl | rfl | rfl | rfl | rfl | rfl <;>
      simp only [AddGuestMetric, applyGuestMetric, guestSeries, lookup_setA_same,
        Option.getD_some]
  · intro hm
    rcases show mtype = "cpu" ∨ mtype = "memory" ∨ mtype = "disk" by simpa using hm with
      rfl | rfl | rfl <;>
      simp only [AddNodeMetric, applyNodeMetric, guestSeries, lookup_setA_same,
        Option.getD_some]
  · intro hm
    rcases show mtype = "usage" ∨ mtype = "used" ∨ mtype = "total" ∨ mtype = "avail" by
        simpa using hm with
      rfl | rfl | rfl | rfl <;>
      simp only [AddStorageMetric, applyStorageMetric, storageSeries, lookup_setA_same,
        Option.getD_some]
  · intro metrics point
    exact ⟨appendMetric_length _ _ _ _ _, appendMetric_suffix _ _ _ _ _,
      fun hs hf => appendMetric_fresh _ _ _ _ _ hs hf⟩

theorem C8_metricsHistory_appendsAndPrunes_witness :
    (guestSeries (((AddGuestMetric c8mh "g1" "cpu" 30 7 7).guestMetrics.lookup
        "g1").getD {}) "cpu" =
      appendMetric c8mh.maxDataPoints c8mh.retentionTime 7
        (guestSeries ((c8mh.guestMetrics.lookup "g1").getD {}) "cpu") ⟨7, 30⟩) ∧
    (appendMetric c8mh.maxDataPoints c8mh.retentionTime 7 c8series ⟨7, 30⟩).length ≤
      c8mh.maxDataPoints ∧
    (∀ q ∈ appendMetric c8mh.maxDataPoints c8mh.retentionTime 7 c8series ⟨7, 30⟩,
      7 - c8mh.retentionTime < q.timestamp) := by
  refine ⟨(C8_metricsHistory_appendsAndPrunes c8mh "g1" "cpu" 30 7 7).1 (by decide),
    ((C8_metricsHistory_appendsAndPrunes c8mh "g1" "cpu" 30 7 7).2.2.2 c8series ⟨7, 30⟩).1,
    ((C8_metricsHistory_appendsAndPrunes c8mh "g1" "cpu" 30 7 7).2.2.2 c8series
      ⟨7, 30⟩).2.2 (by decide) (by decide)⟩

/-- C7 (amended): provided the instance name is not "shared" and does not
begin with "shared-", the storage list published for an instance by
`pollStorageWithNodes` satisfies: every shared entry carries node "shared",
id `shared-<name>` and a cluster configuration marking the pool shared, and
every non-shared entry carries id `<instance>-<node>-<name>`; for each name
`nm` at most one entry with id `shared-<nm>` exists, and exactly one when
some successfully polled node reports the cluster-shared pool `nm`; and with
distinct node names each node contributes exactly one entry per non-shared
pool it reports. Without the proviso the claim fails (see the
counterexample: instance name "shared" makes a non-shared id collide with a
shared id). -/
theorem C7_sharedStorage_dedup (m : MonitorState) (inst nm : String) (cs : List PStorage)
    (gs : String → Option (List PStorage)) (nodes : List String)
    (h1 : inst ≠ "shared")
    (h2 : beginsWith ("shared-".data) inst.data = false) :
    (pollStorageWithNodes m inst cs gs nodes).state.storage.lookup inst =
        some (buildAllStorage inst cs gs nodes []) ∧
    (∀ s ∈ buildAllStorage inst cs gs nodes [],
        (s.shared = true → s.node = "shared" ∧ s.id = "shared-" ++ s.name ∧
          storageSharedFlag cs s.name = true) ∧
        (s.shared = false → s.id = inst ++ "-" ++ s.node ++ "-" ++ s.name ∧
          storageSharedFlag cs s.name = false)) ∧
    ((buildAllStorage inst cs gs nodes []).filter
        (fun s => s.id == "shared-" ++ nm)).length ≤ 1 ∧
    (storageSharedFlag cs nm = true →
      (∃ n ∈ nodes, ∃ es, gs n = some es ∧ ∃ e ∈ es, e.storage = nm) →
      ((buildAllStorage inst cs gs nodes []).filter
          (fun s => s.id == "shared-" ++ nm)).length = 1) ∧
    (∀ n0 ∈ nodes, nodes.Nodup → ∀ es0, gs n0 = some es0 →
      ((buildAllStorage inst cs gs nodes []).filter
          (fun s => !s.shared && s.node == n0)).length =
        (es0.filter (fun e => !storageSharedFlag cs e.storage)).length) := by
  have hbound := buildAllStorage_shared_count inst nm cs gs h1 h2 nodes []
  rw [show ([] : List String).contains nm = false from rfl] at hbound
  simp only [Bool.false_eq_true, if_false] at hbound
  refine ⟨?_, ?_, by omega, ?_, ?_⟩
  · simp only [pollStorageWithNodes]
    exact lookup_setA_same _ _ _
  · intro s hs
    rcases buildAllStorage_mem inst cs gs nodes [] s hs with ⟨n, hn, es, hes, e, he, hq⟩
    subst hq
    cases hfl : storageSharedFlag cs e.storage with
    | true =>
      have hf := buildStorageEntry_fields inst n cs e true
      constructor
      · intro _
        refine ⟨?_, ?_, ?_⟩
        · rw [hf.2.2.1]
          rfl
        · rw [hf.1, hf.2.1]
          rfl
        · rw [hf.2.1]
          exact hfl
      · intro hcontra
        rw [hf.2.2.2] at hcontra
        simp at hcontra
    | false =>
      have hf := buildStorageEntry_fields inst n cs e false
      constructor
      · intro hcontra
        rw [hf.2.2.2] at hcontra
        simp at hcontra
      · intro _
        constructor
        · rw [hf.1, hf.2.1, hf.2.2.1]
          rfl
        · rw [hf.2.1]
          exact hfl
  · intro hflag hex
    have hge := buildAllStorage_shared_emits inst nm cs gs h1 h2 hflag nodes [] rfl hex
    omega
  · intro n0 hn0 hnd es0 hgs
    exact buildAllStorage_nonshared_count inst n0 cs gs nodes [] es0 hnd hn0 hgs

/-- C7 counterexample: for the instance named "shared", node `n1` reporting
the unconfigured local pool `x` alongside the cluster-shared pool `n1-x`
publishes two storage entries with the same id `shared-n1-x` in one poll,
contradicting the claim that no snapshot holds two entries with one
`shared-<name>` id. -/
theorem C7_sharedStorage_dedup_counterexample :
    storageSharedFlag c7cs "n1-x" = true ∧
    (buildAllStorage "shared" c7cs c7gs ["n1"] []).map (fun s => (s.id, s.node)) =
      [("shared-n1-x", "n1"), ("shared-n1-x", "shared")] ∧
    (((((pollStorageWithNodes c7m "shared" c7cs c7gs ["n1"]).state.storage.lookup
        "shared").getD []).filter (fun s => s.id == "shared-" ++ "n1-x")).length) = 2 := by
  refine ⟨rfl, rfl, rfl⟩

theorem C7_sharedStorage_dedup_witness :
    ((buildAllStorage "lab" c7cs2 c7gs2 ["n1", "n2", "n3"] []).filter
        (fun s => s.id == "shared-" ++ "ceph-rbd")).length = 1 ∧
    ((buildAllStorage "lab" c7cs2 c7gs2 ["n1", "n2", "n3"] []).filter
        (fun s => !s.shared && s.node == "n1")).length =
      (([⟨"ceph-rbd", "", 1, 1, 1⟩] : List PStorage).filter
          (fun e => !storageSharedFlag c7cs2 e.storage)).length :=
  ⟨(C7_sharedStorage_dedup c7m "lab" "ceph-rbd" c7cs2 c7gs2 ["n1", "n2", "n3"]
      (by decide) (by decide)).2.2.2.1 rfl
      ⟨"n1", List.mem_cons_self _ _, [⟨"ceph-rbd", "", 1, 1, 1⟩], rfl,
        ⟨"ceph-rbd", "", 1, 1, 1⟩, List.mem_cons_self _ _, rfl⟩,
   (C7_sharedStorage_dedup c7m "lab" "ceph-rbd" c7cs2 c7gs2 ["n1", "n2", "n3"]
      (by decide) (by decide)).2.2.2.2 "n1" (List.mem_cons_self _ _) (by decide)
      [⟨"ceph-rbd", "", 1, 1, 1⟩] rfl⟩

end Pulse
